import Mathlib

/-!
# cdn77-refresh: a shallow embedding of `cdn77-refresh.go`

The program is one sequential pass: list the CDN resources, resolve the resource id of the
configured site, optionally purge, load a sitemap, prefetch its URLs.  Every failure ends the
process with `os.Exit(code)`.

The embedding keeps the shape of the Go source:

* a run is a value of `Prog α`: the trace of observable events (HTTP calls, file opens, log
  lines) together with either the returned value or the exit code of `os.Exit`;
* everything outside the repository (the network, the file system, `encoding/json`,
  `encoding/xml`, `strings.ToLower`, `strings.TrimSpace`) is a field of `World`, so every theorem
  quantified over `World` holds for whatever those libraries and servers answer;
* `bytes.Buffer.WriteString` is string concatenation.
-/

namespace Cdn77

/-! ## Data model -/

/-- Byte slices (`[]byte`); only ever handed from a reader to a decoder. -/
abbrev Bytes := String

/-- The Go type `map[string]string`, as an association list. -/
abbrev StrMap := List (String × String)

/-- Map read `m[k]`: the zero value `""` when the key is absent. -/
def StrMap.get (m : StrMap) (k : String) : String :=
  match m.lookup k with
  | some v => v
  | none => ""

/-- Map write `m[k] = v`. -/
def StrMap.set (m : StrMap) (k v : String) : StrMap :=
  (m.filter fun kv => kv.1 != k) ++ [(k, v)]

/-- The struct `cdn77response`. -/
structure cdn77response where
  Status : String
  Description : String
  deriving DecidableEq, Repr

/-- The anonymous element struct of `cdn77resourcelist.CdnResource`. -/
structure CdnResource where
  Id : Int
  CName : String
  deriving DecidableEq, Repr

/-- The struct `cdn77resourcelist`. -/
structure cdn77resourcelist where
  Status : String
  Description : String
  CdnResource : List CdnResource
  deriving DecidableEq, Repr

/-- The struct `Url` (the `XMLName` field carries no data). -/
structure Url where
  Loc : String
  deriving DecidableEq, Repr

/-- The struct `UrlSet`. -/
structure UrlSet where
  Urls : List Url
  deriving DecidableEq, Repr

/-- The command-line flags after `kingpin.Parse()`. -/
structure Flags where
  login : String
  token : String
  site : String
  sitemap : String
  purge : Bool
  verbose : Bool
  deriving DecidableEq, Repr

/-- The second argument of `httpclient.Post`: a `map[string]string` or a `url.Values`. -/
inductive PostParams where
  | map (m : StrMap)
  | values (v : List (String × List String))
  deriving DecidableEq, Repr

/-- An open HTTP response: what `ReadAll` will return (the bytes read, and the error if any). -/
structure Response where
  body : Bytes
  readErr : Option String
  deriving DecidableEq, Repr

/-- The method `(*httpclient.Response).ReadAll`. -/
def Response.ReadAll (r : Response) : Bytes × Option String := (r.body, r.readErr)

/-- An open file: what `ioutil.ReadAll` will return for it. -/
structure File where
  contents : Bytes
  readErr : Option String
  deriving DecidableEq, Repr

/-- The function `ioutil.ReadAll` on an open file. -/
def File.ReadAll (f : File) : Bytes × Option String := (f.contents, f.readErr)

/-- Everything the program calls that is not part of the repository. -/
structure World where
  /-- The function `strings.ToLower`. -/
  ToLower : String → String
  /-- The function `strings.TrimSpace`. -/
  TrimSpace : String → String
  /-- The call `httpclient.Get(url, params...)`; `none` when no params are passed. -/
  Get : String → Option StrMap → Except String Response
  /-- The call `httpclient.Post(url, params)`. -/
  Post : String → PostParams → Except String Response
  /-- The function `os.Open`. -/
  Open : String → Except String File
  /-- The call of `json.Unmarshal` into a `cdn77resourcelist`. -/
  jsonResourceList : Bytes → Except String cdn77resourcelist
  /-- The call of `json.Unmarshal` into a `cdn77response`. -/
  jsonResponse : Bytes → Except String cdn77response
  /-- The call of `xml.Unmarshal` into a `UrlSet`. -/
  xmlUrlSet : Bytes → Except String UrlSet

/-! ## Runs -/

/-- Observable actions of a run, in the order they happen. -/
inductive Event where
  | httpGet (url : String) (params : Option StrMap)
  | httpPost (url : String) (params : PostParams)
  | osOpen (name : String)
  | logInfo (msg : String)
  | logError (msg : String)
  deriving DecidableEq, Repr

/-- How a piece of the program ends: `os.Exit(code)`, or a normal return. -/
inductive Outcome (α : Type) where
  | exit (code : Nat)
  | ret (a : α)
  deriving DecidableEq, Repr

/-- A run of a piece of the program: its events and how it ended. -/
structure Prog (α : Type) where
  trace : List Event
  result : Outcome α

/-- Sequencing: nothing runs after `os.Exit`. -/
def Prog.bind {α β : Type} (p : Prog α) (f : α → Prog β) : Prog β :=
  match p.result with
  | .exit c => ⟨p.trace, .exit c⟩
  | .ret a => ⟨p.trace ++ (f a).trace, (f a).result⟩

instance : Monad Prog where
  pure a := ⟨[], .ret a⟩
  bind := Prog.bind

/-- Record one event. -/
def emit (e : Event) : Prog Unit := ⟨[e], .ret ()⟩

/-- The call `os.Exit(code)`. -/
def osExit {α : Type} (code : Nat) : Prog α := ⟨[], .exit code⟩

/-- The call `log.Info().Msg(msg)`. -/
def logInfo (msg : String) : Prog Unit := emit (.logInfo msg)

/-- The call `log.Error().Msg(msg)`. -/
def logError (msg : String) : Prog Unit := emit (.logError msg)

/-- The function `strings.HasPrefix`. -/
def HasPrefix (s pre : String) : Bool := pre.data.isPrefixOf s.data

/-- The function `strconv.Itoa`. -/
def Itoa (i : Int) : String := toString i

/-! ## The program -/

/-- The resource-listing endpoint. -/
def listUrl : String := "https://api.cdn77.com/v2.0/cdn-resource/list"
/-- The purge endpoint. -/
def purgeUrl : String := "https://api.cdn77.com/v2.0/data/purge-all"
/-- The prefetch endpoint. -/
def prefetchUrl : String := "https://api.cdn77.com/v2.0/data/prefetch"

/-- The function `getResourceList`. -/
def getResourceList (w : World) (params : StrMap) : Prog cdn77resourcelist := do
  let mut messages := ""
  messages := messages ++ "Reading resource list from CDN77 ... "
  emit (.httpGet listUrl (some params))
  match w.Get listUrl (some params) with
  | .error err =>
    messages := messages ++ err
    logError messages
    osExit 0xe1
  | .ok response =>
    let (responseBody, err) := response.ReadAll
    if let some e := err then
      messages := messages ++ e
      logError messages
      osExit 0xe2
    match w.jsonResourceList responseBody with
    | .error err =>
      messages := messages ++ err
      logError messages
      osExit 0xe3
    | .ok resourcelist =>
      if resourcelist.Status != "ok" then
        messages := messages ++ resourcelist.Status
        messages := messages ++ ": "
        messages := messages ++ resourcelist.Description
        logError messages
        osExit 0xf0
      messages := messages ++ "ok"
      logInfo messages
      return resourcelist

/-- The `for _, cdnres := range resourcelist.CdnResource` loop of `getCdnId`, as a function of
the entries still to visit and the current value of `cdn_id`. -/
def getCdnId.scan (w : World) (site : String) : List CdnResource → String → String
  | [], cdn_id => cdn_id
  | cdnres :: rest, cdn_id =>
    if w.ToLower cdnres.CName == w.ToLower site then
      -- `cdn_id = strconv.Itoa(cdnres.Id)` followed by `break`
      Itoa cdnres.Id
    else
      getCdnId.scan w site rest cdn_id

/-- The function `getCdnId`. -/
def getCdnId (w : World) (site : String) (resourcelist : cdn77resourcelist) : Prog String := do
  let mut messages := ""
  messages := messages ++ "Searching for "
  messages := messages ++ site
  messages := messages ++ " ... "
  let cdn_id := getCdnId.scan w site resourcelist.CdnResource ""
  if cdn_id == "" then
    messages := messages ++ "not found, aborting"
    logError messages
    osExit 0xa0
  messages := messages ++ "ok ("
  messages := messages ++ "resource id #"
  messages := messages ++ cdn_id
  messages := messages ++ ")"
  logInfo messages
  return cdn_id

/-- The function `purgeAll`; `verbose` is the global flag it reads. -/
def purgeAll (w : World) (verbose : Bool) (params : StrMap) : Prog Unit := do
  let mut messages := ""
  messages := messages ++ "Starting 'purge-all' ... "
  emit (.httpPost purgeUrl (.map params))
  match w.Post purgeUrl (.map params) with
  | .error err =>
    messages := messages ++ err
    messages := messages ++ ", aborting"
    logError messages
    osExit 0xb0
  | .ok r =>
    -- `b, _ := r.ReadAll()`
    let (b, _) := r.ReadAll
    match w.jsonResponse b with
    | .error err =>
      messages := messages ++ err
      messages := messages ++ ", aborting"
      logError messages
      osExit 0xb1
    | .ok cdn77r =>
      if cdn77r.Status != "ok" then
        messages := messages ++ cdn77r.Status
        messages := messages ++ ": "
        messages := messages ++ cdn77r.Description
        messages := messages ++ ", aborting"
        logError messages
        osExit 0xb2
      messages := messages ++ "ok"
      if verbose then
        messages := messages ++ " ("
        messages := messages ++ cdn77r.Description
        messages := messages ++ ")"
      logInfo messages

/-- The condition of the `if` in `urlsFromSitemap`. -/
def isHttpSource (w : World) (filename : String) : Bool :=
  HasPrefix (w.TrimSpace (w.ToLower filename)) "http://" ||
    HasPrefix (w.TrimSpace (w.ToLower filename)) "https://"

/-- The `for _, u := range urlset.Urls { s = append(s, u.Loc) }` loop of `urlsFromSitemap`,
started from `s := []string{}`. -/
def urlsFromSitemap.collect (urls : List Url) : List String :=
  urls.foldl (fun s u => s ++ [u.Loc]) []

/-- The function `urlsFromSitemap`.

The function block declares `var err error`, which starts as nil.  Each branch of the `if`
opens with a short variable declaration (`r, err := httpclient.Get(..)`, `f, err := os.Open(..)`)
and so declares an `err` of its own, local to the branch; the later
`byteValue, err = ...ReadAll()` inside the branch assigns `byteValue` of the function block and
that branch-local `err`.  The `if err != nil` after the branches reads the function block's
`err`, bound here once and never reassigned. -/
def urlsFromSitemap (w : World) (filename : String) : Prog (List String) := do
  let mut messages := ""
  let mut byteValue : Bytes := ""
  let err : Option String := none
  messages := messages ++ "Reading '"
  messages := messages ++ filename
  messages := messages ++ "' ... "
  if isHttpSource w filename then
    emit (.httpGet (w.TrimSpace filename) none)
    match w.Get (w.TrimSpace filename) none with
    | .error err =>
      messages := messages ++ err
      messages := messages ++ ", aborting"
      logError messages
      osExit 0xc0
    | .ok r =>
      -- `byteValue, err = r.ReadAll()`: the error goes to the branch-local `err`
      let (b, _) := r.ReadAll
      byteValue := b
  else
    emit (.osOpen filename)
    match w.Open filename with
    | .error err =>
      messages := messages ++ err
      messages := messages ++ ", aborting"
      logError messages
      osExit 0xc0
    | .ok f =>
      -- `byteValue, err = ioutil.ReadAll(f)`: the error goes to the branch-local `err`
      let (b, _) := f.ReadAll
      byteValue := b
  if let some e := err then
    messages := messages ++ e
    messages := messages ++ ", aborting"
    logError messages
    osExit 0xc1
  match w.xmlUrlSet byteValue with
  | .error err =>
    messages := messages ++ err
    messages := messages ++ ", aborting"
    logError messages
    osExit 0xc2
  | .ok urlset =>
    messages := messages ++ "ok"
    logInfo messages
    return urlsFromSitemap.collect urlset.Urls

/-- The `for i, u := range urls` loop of `prefetchUrls` (run when `verbose` is set), as a
function of the index, the URLs still to visit and the buffer. -/
def prefetchUrls.writeUrls : Nat → List String → String → String
  | _, [], messages => messages
  | i, u :: rest, messages =>
    let messages := if i > 0 then messages ++ ", " else messages
    let messages := messages ++ "'"
    let messages := messages ++ u
    let messages := messages ++ "'"
    prefetchUrls.writeUrls (i + 1) rest messages

/-- The `url.Values` literal posted by `prefetchUrls`. -/
def prefetchUrls.form (urls : List String) (params : StrMap) : PostParams :=
  .values [("cdn_id", [params.get "cdn_id"]),
           ("login", [params.get "login"]),
           ("passwd", [params.get "passwd"]),
           ("url[]", urls)]

/-- The function `prefetchUrls`; `verbose` is the global flag it reads. -/
def prefetchUrls (w : World) (verbose : Bool) (urls : List String) (params : StrMap) :
    Prog Unit := do
  let mut messages := ""
  messages := messages ++ "Prefetching "
  if verbose then
    messages := prefetchUrls.writeUrls 0 urls messages
  messages := messages ++ " ... "
  emit (.httpPost prefetchUrl (prefetchUrls.form urls params))
  match w.Post prefetchUrl (prefetchUrls.form urls params) with
  | .error err =>
    messages := messages ++ err
    logError messages
    osExit 0xd0
  | .ok response =>
    -- `responseBody, _ := response.ReadAll()`
    let (responseBody, _) := response.ReadAll
    match w.jsonResponse responseBody with
    | .error err =>
      messages := messages ++ err
      logError messages
      osExit 0xd1
    | .ok cdn77r =>
      if cdn77r.Status != "ok" then
        messages := messages ++ cdn77r.Status
        messages := messages ++ " ("
        messages := messages ++ cdn77r.Description
        messages := messages ++ ")"
        logError messages
        osExit 0xd2
      messages := messages ++ "ok"
      if verbose then
        messages := messages ++ " ("
        messages := messages ++ cdn77r.Description
        messages := messages ++ ")"
      logInfo messages

/-- The function `main`, from the parsed flags on. -/
def main (w : World) (flags : Flags) : Prog Unit := do
  let mut params : StrMap := [("login", flags.login), ("passwd", flags.token)]
  let resourcelist ← getResourceList w params
  let cdn_id ← getCdnId w flags.site resourcelist
  params := params.set "cdn_id" cdn_id
  if flags.purge then
    purgeAll w flags.verbose params
  let urls ← urlsFromSitemap w flags.sitemap
  prefetchUrls w flags.verbose urls params
  logInfo "End."
  osExit 0x0

/-! ## Vocabulary of the statements -/

/-- A call of the purge endpoint. -/
def Event.isPurge : Event → Bool
  | .httpPost url _ => url == purgeUrl
  | _ => false

/-- A call of the prefetch endpoint. -/
def Event.isPrefetch : Event → Bool
  | .httpPost url _ => url == prefetchUrl
  | _ => false

/-- A sitemap load: an HTTP GET without request parameters, or a file open. -/
def Event.isSitemapLoad : Event → Bool
  | .httpGet _ none => true
  | .osOpen _ => true
  | _ => false

/-- A log line of level error. -/
def Event.isError : Event → Bool
  | .logError _ => true
  | _ => false

/-- A log line of either level. -/
def Event.isLog : Event → Bool
  | .logInfo _ => true
  | .logError _ => true
  | _ => false

/-- The `params` map as `main` builds it before the first call. -/
def loginParams (flags : Flags) : StrMap := [("login", flags.login), ("passwd", flags.token)]

/-- The first event of `urlsFromSitemap`: the GET of the trimmed source, or the file open. -/
def sitemapLoadEvent (w : World) (filename : String) : Event :=
  if isHttpSource w filename then .httpGet (w.TrimSpace filename) none else .osOpen filename

/-- The last two statements of `main`. -/
def finish : Prog Unit :=
  Prog.bind (logInfo "End.") fun _ => osExit 0

/-- The statements of `main` from the sitemap load on, for the resolved id `cdn_id`. -/
def afterPurge (w : World) (flags : Flags) (cdn_id : String) : Prog Unit :=
  Prog.bind (urlsFromSitemap w flags.sitemap) fun urls =>
  Prog.bind (prefetchUrls w flags.verbose urls ((loginParams flags).set "cdn_id" cdn_id)) fun _ =>
  finish

/-- The `if *purge` statement of `main`, for the resolved id `cdn_id`. -/
def purgeStep (w : World) (flags : Flags) (cdn_id : String) : Prog Unit :=
  if flags.purge then purgeAll w flags.verbose ((loginParams flags).set "cdn_id" cdn_id)
  else pure ()

/-- The stages of the program that can end it with a failure code. -/
inductive Stage where
  | listing
  | resolve
  | purge
  | sitemap
  | prefetch
  deriving DecidableEq, Repr

/-- The arguments of the `os.Exit` calls written in the function of each stage
(`getResourceList`, `getCdnId`, `purgeAll`, `urlsFromSitemap`, `prefetchUrls`). -/
def Stage.exitCodes : Stage → List Nat
  | .listing => [0xe1, 0xe2, 0xe3, 0xf0]
  | .resolve => [0xa0]
  | .purge => [0xb0, 0xb1, 0xb2]
  | .sitemap => [0xc0, 0xc1, 0xc2]
  | .prefetch => [0xd0, 0xd1, 0xd2]

/-- The wording of the spec for the verbose URL list: each URL wrapped in single quotes, the
quoted URLs joined by `", "`. -/
def quotedUrls (urls : List String) : String :=
  ", ".intercalate (urls.map fun u => "'" ++ u ++ "'")

/-! ## Concrete worlds

`strings.ToLower` and `strings.TrimSpace` restricted to ASCII (where they agree with the Go
library), and the servers and files of the scenarios of the spec. -/

/-- ASCII `strings.ToLower`: `A`-`Z` to `a`-`z`. -/
def asciiToLower (s : String) : String := ⟨s.data.map Char.toLower⟩

/-- The ASCII white space of `strings.TrimSpace`. -/
def asciiSpace (c : Char) : Bool :=
  c == '\t' || c == '\n' || c == '\x0b' || c == '\x0c' || c == '\r' || c == ' '

/-- ASCII `strings.TrimSpace`: drops leading and trailing white space. -/
def asciiTrimSpace (s : String) : String :=
  ⟨((s.data.dropWhile asciiSpace).reverse.dropWhile asciiSpace).reverse⟩

/-- The sitemap of the round-trip scenario. -/
def sitemapDoc : Bytes :=
  "<urlset><url><loc>https://a.com/1</loc></url><url><loc>https://a.com/2</loc></url></urlset>"

/-- The `UrlSet` that `sitemapDoc` decodes to. -/
def sitemapUrlSet : UrlSet := ⟨[⟨"https://a.com/1"⟩, ⟨"https://a.com/2"⟩]⟩

/-- The listing body of the end-to-end scenario. -/
def listBody : Bytes :=
  "\x7b\"status\":\"ok\",\"description\":\"\",\"cdnResources\":[\x7b\"id\":5,\"cname\":\"Site.Example\"\x7d]\x7d"

/-- The resource list that `listBody` decodes to. -/
def scenarioList : cdn77resourcelist := ⟨"ok", "", [⟨5, "Site.Example"⟩]⟩

/-- The envelope `{status: "ok", description: "queued"}` as a body. -/
def queuedBody : Bytes := "\x7b\"status\":\"ok\",\"description\":\"queued\"\x7d"

/-- An envelope with a status other than `"ok"`, as a body. -/
def deniedBody : Bytes := "\x7b\"status\":\"error\",\"description\":\"Authentication failed.\"\x7d"

/-- The listing decoder of the scenarios: each known body decodes to its value, anything else
is a syntax error. -/
def decodeResourceList (b : Bytes) : Except String cdn77resourcelist :=
  if b = listBody then .ok scenarioList
  else if b = deniedBody then .ok ⟨"error", "Authentication failed.", []⟩
  else .error "unexpected end of JSON input"

/-- The envelope decoder of the scenarios. -/
def decodeResponse (b : Bytes) : Except String cdn77response :=
  if b = queuedBody then .ok ⟨"ok", "queued"⟩
  else if b = deniedBody then .ok ⟨"error", "Authentication failed."⟩
  else .error "unexpected end of JSON input"

/-- The sitemap decoder of the scenarios; no bytes at all is the error `EOF`. -/
def decodeUrlSet (b : Bytes) : Except String UrlSet :=
  if b = sitemapDoc then .ok sitemapUrlSet
  else if b = "<urlset></urlset>" then .ok ⟨[]⟩
  else .error "EOF"

/-- The world of the end-to-end scenario: the listing holds `{id: 5, cname: "Site.Example"}`,
the sitemap (as the file `sitemap.xml` and at `https://site.example/sitemap.xml`) is
`sitemapDoc`, the file `empty.xml` is a `urlset` without entries, `sitemaps` is a directory
(it opens, and reading it fails), purge and prefetch answer `{status: "ok", description: "queued"}`. -/
def scenarioWorld : World where
  ToLower := asciiToLower
  TrimSpace := asciiTrimSpace
  Get := fun url params =>
    if url = listUrl ∧ params.isSome then .ok ⟨listBody, none⟩
    else if url = "https://site.example/sitemap.xml" ∧ params.isNone then .ok ⟨sitemapDoc, none⟩
    else .error "connection refused"
  Post := fun _ _ => .ok ⟨queuedBody, none⟩
  Open := fun name =>
    if name = "sitemap.xml" then .ok ⟨sitemapDoc, none⟩
    else if name = "empty.xml" then .ok ⟨"<urlset></urlset>", none⟩
    else if name = "sitemaps" then .ok ⟨"", some "read sitemaps: is a directory"⟩
    else .error "no such file or directory"
  jsonResourceList := decodeResourceList
  jsonResponse := decodeResponse
  xmlUrlSet := decodeUrlSet

/-- The flags of the end-to-end scenario: site `site.example`, purge unset. -/
def scenarioFlags : Flags :=
  ⟨"me@site.example", "t0ken", "site.example", "sitemap.xml", false, false⟩

/-- A world whose API answers every call with a status other than `"ok"`. -/
def deniedWorld : World :=
  { scenarioWorld with
    Get := fun _ _ => .ok ⟨deniedBody, none⟩
    Post := fun _ _ => .ok ⟨deniedBody, none⟩ }

/-- A world in which the sitemap server sends the whole of `sitemapDoc` and then the read of
the body fails (a response shorter than its `Content-Length`: `ReadAll` returns the bytes read
and `unexpected EOF`). -/
def truncatedWorld : World :=
  { scenarioWorld with
    Get := fun url params =>
      if url = listUrl ∧ params.isSome then .ok ⟨listBody, none⟩
      else if url = "https://site.example/sitemap.xml" ∧ params.isNone then
        .ok ⟨sitemapDoc, some "unexpected EOF"⟩
      else .error "connection refused" }

/-- The flags of the scenario with the sitemap fetched over HTTP. -/
def httpFlags : Flags :=
  ⟨"me@site.example", "t0ken", "site.example", "https://site.example/sitemap.xml", false, false⟩

/-! ## Lemmas on the library models -/

theorem toDigits_ne_nil (n : Nat) : Nat.toDigits 10 n ≠ [] := by
  intro h
  have hl : (Nat.toDigits 10 n).length = 0 := by rw [h]; rfl
  unfold Nat.toDigits at hl
  rw [Nat.toDigitsCore] at hl
  split at hl
  · simp at hl
  · rw [Nat.toDigitsCore_lens_eq] at hl
    omega

/-- The string returned by `strconv.Itoa` is never empty. -/
theorem Itoa_ne_empty (i : Int) : Itoa i ≠ "" := by
  intro h
  have hd : (Itoa i).data = [] := by rw [h]
  cases i with
  | ofNat n =>
    have : Nat.toDigits 10 n = [] := by
      simpa [Itoa, toString, Nat.repr, List.asString] using hd
    exact toDigits_ne_nil n this
  | negSucc n =>
    simp [Itoa, toString, instToStringInt] at hd

/-! ## Lemmas on the loops -/

theorem scan_no_match (w : World) (site : String) (l : List CdnResource) (acc : String)
    (h : ∀ x ∈ l, w.ToLower x.CName ≠ w.ToLower site) : getCdnId.scan w site l acc = acc := by
  induction l with
  | nil => rfl
  | cons a t ih =>
    have ha := h a (List.mem_cons_self a t)
    simp only [getCdnId.scan, beq_iff_eq, ha, if_false]
    exact ih fun x hx => h x (List.mem_cons_of_mem a hx)

theorem scan_first_match (w : World) (site : String) (pre post : List CdnResource)
    (e : CdnResource) (acc : String)
    (hpre : ∀ x ∈ pre, w.ToLower x.CName ≠ w.ToLower site)
    (he : w.ToLower e.CName = w.ToLower site) :
    getCdnId.scan w site (pre ++ e :: post) acc = Itoa e.Id := by
  induction pre with
  | nil => simp [getCdnId.scan, he]
  | cons a t ih =>
    have ha := hpre a (List.mem_cons_self a t)
    simp only [List.cons_append, getCdnId.scan, beq_iff_eq, ha, if_false]
    exact ih fun x hx => hpre x (List.mem_cons_of_mem a hx)

theorem exists_first (p : CdnResource → Prop) (l : List CdnResource) (h : ∃ x ∈ l, p x) :
    ∃ pre e post, l = pre ++ e :: post ∧ (∀ x ∈ pre, ¬ p x) ∧ p e := by
  induction l with
  | nil => simp at h
  | cons a t ih =>
    by_cases ha : p a
    · exact ⟨[], a, t, rfl, by simp, ha⟩
    · have ht : ∃ x ∈ t, p x := by
        obtain ⟨x, hx, hpx⟩ := h
        rcases List.mem_cons.mp hx with rfl | hx
        · exact absurd hpx ha
        · exact ⟨x, hx, hpx⟩
      obtain ⟨pre, e, post, hl, hpre, he⟩ := ih ht
      refine ⟨a :: pre, e, post, by simp [hl], ?_, he⟩
      intro x hx
      rcases List.mem_cons.mp hx with rfl | hx
      · exact ha
      · exact hpre x hx

theorem collect_append (urls : List Url) (acc : List String) :
    urls.foldl (fun s u => s ++ [u.Loc]) acc = acc ++ urls.map Url.Loc := by
  induction urls generalizing acc with
  | nil => simp
  | cons u t ih => simp [ih]

/-- The collecting loop of `urlsFromSitemap` returns the `loc` of every entry, in order. -/
theorem collect_eq_map (urls : List Url) :
    urlsFromSitemap.collect urls = urls.map Url.Loc := by
  simp [urlsFromSitemap.collect, collect_append]

theorem intercalate_go_append (pre acc s : String) (l : List String) :
    String.intercalate.go (pre ++ acc) s l = pre ++ String.intercalate.go acc s l := by
  induction l generalizing acc with
  | nil => rfl
  | cons a t ih =>
    simp only [String.intercalate.go]
    rw [← ih]
    simp [String.append_assoc]

theorem writeUrls_succ (i : Nat) (urls : List String) (acc : String) :
    prefetchUrls.writeUrls (i + 1) urls acc =
      String.intercalate.go acc ", " (urls.map fun u => "'" ++ u ++ "'") := by
  induction urls generalizing i acc with
  | nil => rfl
  | cons u t ih =>
    simp only [prefetchUrls.writeUrls, List.map_cons, String.intercalate.go]
    rw [ih]
    simp only [Nat.succ_pos, if_true, String.append_assoc, Nat.lt_add_one, Nat.zero_lt_succ]

/-- The verbose loop of `prefetchUrls` appends the quoted, comma-separated URL list. -/
theorem writeUrls_zero (urls : List String) (acc : String) :
    prefetchUrls.writeUrls 0 urls acc = acc ++ quotedUrls urls := by
  cases urls with
  | nil => simp [prefetchUrls.writeUrls, quotedUrls, String.intercalate]
  | cons u t =>
    simp only [prefetchUrls.writeUrls, quotedUrls, List.map_cons, String.intercalate]
    rw [writeUrls_succ]
    simp only [Nat.lt_irrefl, if_false]
    rw [← intercalate_go_append]
    simp [String.append_assoc]

/-! ## Lemmas on the stages: the events of each function and how it ends -/

theorem getResourceList_shape (w : World) (params : StrMap) :
    ∃ m, (getResourceList w params).trace = [.httpGet listUrl (some params), m] ∧
      ((∃ c s, (getResourceList w params).result = .exit c ∧ m = .logError s ∧
          c ∈ [0xe1, 0xe2, 0xe3, 0xf0]) ∨
       (∃ rl, (getResourceList w params).result = .ret rl ∧
          m = .logInfo "Reading resource list from CDN77 ... ok")) := by
  unfold getResourceList
  rcases hg : w.Get listUrl (some params) with err | r
  · simp [bind, Prog.bind, emit, logError, osExit]
  · rcases hr : r.ReadAll with ⟨b, _ | e⟩
    · rcases hd : w.jsonResourceList b with err | rl
      · simp [bind, Prog.bind, emit, logError, logInfo, osExit, pure, hr, hd]
      · by_cases hs : rl.Status = "ok"
        · simp [bind, Prog.bind, emit, logError, logInfo, osExit, pure, hr, hd, hs]
        · simp [bind, Prog.bind, emit, logError, logInfo, osExit, pure, hr, hd, hs]
    · simp [bind, Prog.bind, emit, logError, osExit, hr]

theorem getCdnId_shape (w : World) (site : String) (rl : cdn77resourcelist) :
    ∃ m, (getCdnId w site rl).trace = [m] ∧
      (((getCdnId w site rl).result = .exit 0xa0 ∧
          getCdnId.scan w site rl.CdnResource "" = "" ∧
          m = .logError ("Searching for " ++ site ++ " ... not found, aborting")) ∨
       (∃ id, (getCdnId w site rl).result = .ret id ∧
          getCdnId.scan w site rl.CdnResource "" = id ∧ id ≠ "" ∧
          m = .logInfo ("Searching for " ++ site ++ " ... ok (resource id #" ++ id ++ ")"))) := by
  unfold getCdnId
  by_cases h : getCdnId.scan w site rl.CdnResource "" = ""
  · simp [bind, Prog.bind, emit, logError, logInfo, osExit, pure, h, String.append_assoc]
  · simp [bind, Prog.bind, emit, logError, logInfo, osExit, pure, h, String.append_assoc]

theorem purgeAll_shape (w : World) (verbose : Bool) (params : StrMap) :
    ∃ m, (purgeAll w verbose params).trace = [.httpPost purgeUrl (.map params), m] ∧
      ((∃ c s, (purgeAll w verbose params).result = .exit c ∧ m = .logError s ∧
          c ∈ [0xb0, 0xb1, 0xb2]) ∨
       (∃ s, (purgeAll w verbose params).result = .ret () ∧ m = .logInfo s)) := by
  unfold purgeAll
  rcases hg : w.Post purgeUrl (.map params) with err | r
  · simp [bind, Prog.bind, emit, logError, osExit]
  · rcases hr : r.ReadAll with ⟨b, e⟩
    rcases hd : w.jsonResponse b with err | rl
    · simp [bind, Prog.bind, emit, logError, logInfo, osExit, pure, hr, hd]
    · by_cases hs : rl.Status = "ok"
      · cases verbose <;>
          simp [bind, Prog.bind, emit, logError, logInfo, osExit, pure, hr, hd, hs]
      · simp [bind, Prog.bind, emit, logError, logInfo, osExit, pure, hr, hd, hs]

theorem urlsFromSitemap_shape (w : World) (filename : String) :
    ∃ m, (urlsFromSitemap w filename).trace = [sitemapLoadEvent w filename, m] ∧
      ((∃ c s, (urlsFromSitemap w filename).result = .exit c ∧ m = .logError s ∧
          c ∈ [0xc0, 0xc2]) ∨
       (∃ urls, (urlsFromSitemap w filename).result = .ret urls ∧
          m = .logInfo ("Reading '" ++ filename ++ "' ... ok"))) := by
  unfold urlsFromSitemap sitemapLoadEvent
  cases hp : isHttpSource w filename
  · rcases hg : w.Open filename with err | r
    · simp [bind, Prog.bind, emit, logError, osExit]
    · rcases hr : r.ReadAll with ⟨b, e⟩
      rcases hd : w.xmlUrlSet b with err | us
      · simp [bind, Prog.bind, emit, logError, logInfo, osExit, pure, hr, hd]
      · simp [bind, Prog.bind, emit, logError, logInfo, osExit, pure, hr, hd,
          String.append_assoc]
  · rcases hg : w.Get (w.TrimSpace filename) none with err | r
    · simp [bind, Prog.bind, emit, logError, osExit]
    · rcases hr : r.ReadAll with ⟨b, e⟩
      rcases hd : w.xmlUrlSet b with err | us
      · simp [bind, Prog.bind, emit, logError, logInfo, osExit, pure, hr, hd]
      · simp [bind, Prog.bind, emit, logError, logInfo, osExit, pure, hr, hd,
          String.append_assoc]

theorem prefetchUrls_shape (w : World) (verbose : Bool) (urls : List String) (params : StrMap) :
    ∃ m, (prefetchUrls w verbose urls params).trace =
        [.httpPost prefetchUrl (prefetchUrls.form urls params), m] ∧
      ((∃ c s, (prefetchUrls w verbose urls params).result = .exit c ∧ m = .logError s ∧
          c ∈ [0xd0, 0xd1, 0xd2]) ∨
       (∃ s, (prefetchUrls w verbose urls params).result = .ret () ∧ m = .logInfo s)) := by
  unfold prefetchUrls
  rcases hg : w.Post prefetchUrl (prefetchUrls.form urls params) with err | r
  · cases verbose <;> simp [bind, Prog.bind, emit, logError, osExit, pure]
  · rcases hr : r.ReadAll with ⟨b, e⟩
    rcases hd : w.jsonResponse b with err | rl
    · cases verbose <;>
        simp [bind, Prog.bind, emit, logError, logInfo, osExit, pure, hr, hd]
    · by_cases hs : rl.Status = "ok"
      · cases verbose <;>
          simp [bind, Prog.bind, emit, logError, logInfo, osExit, pure, hr, hd, hs]
      · cases verbose <;>
          simp [bind, Prog.bind, emit, logError, logInfo, osExit, pure, hr, hd, hs]

/-- The function `main` as the chain of its stages. -/
theorem main_eq (w : World) (flags : Flags) :
    main w flags =
      Prog.bind (getResourceList w (loginParams flags)) fun rl =>
      Prog.bind (getCdnId w flags.site rl) fun id =>
      Prog.bind (purgeStep w flags id) fun _ => afterPurge w flags id := by
  unfold main purgeStep afterPurge finish
  cases flags.purge <;> rfl

/-! ## Lemmas on `main` -/

theorem finish_eq : finish = ⟨[.logInfo "End."], .exit 0⟩ := rfl

theorem purgeStep_cases (w : World) (flags : Flags) (id : String) :
    (flags.purge = false ∧ purgeStep w flags id = ⟨[], .ret ()⟩) ∨
    (flags.purge = true ∧
      purgeStep w flags id = purgeAll w flags.verbose ((loginParams flags).set "cdn_id" id)) := by
  unfold purgeStep
  cases flags.purge
  · left; exact ⟨rfl, rfl⟩
  · right; exact ⟨rfl, rfl⟩

theorem afterPurge_cases (w : World) (flags : Flags) (id : String) :
    (∃ c s, (urlsFromSitemap w flags.sitemap).result = .exit c ∧ c ∈ [0xc0, 0xc2] ∧
      afterPurge w flags id = ⟨[sitemapLoadEvent w flags.sitemap, .logError s], .exit c⟩) ∨
    (∃ urls, (urlsFromSitemap w flags.sitemap).result = .ret urls ∧
      ((∃ c s, (prefetchUrls w flags.verbose urls
            ((loginParams flags).set "cdn_id" id)).result = .exit c ∧ c ∈ [0xd0, 0xd1, 0xd2] ∧
          afterPurge w flags id =
            ⟨[sitemapLoadEvent w flags.sitemap,
              .logInfo ("Reading '" ++ flags.sitemap ++ "' ... ok"),
              .httpPost prefetchUrl
                (prefetchUrls.form urls ((loginParams flags).set "cdn_id" id)),
              .logError s], .exit c⟩) ∨
       (∃ s, (prefetchUrls w flags.verbose urls
            ((loginParams flags).set "cdn_id" id)).result = .ret () ∧
          afterPurge w flags id =
            ⟨[sitemapLoadEvent w flags.sitemap,
              .logInfo ("Reading '" ++ flags.sitemap ++ "' ... ok"),
              .httpPost prefetchUrl
                (prefetchUrls.form urls ((loginParams flags).set "cdn_id" id)),
              .logInfo s, .logInfo "End."], .exit 0⟩))) := by
  obtain ⟨m4, ht4, h4⟩ := urlsFromSitemap_shape w flags.sitemap
  rcases h4 with ⟨c4, s4, hr4, rfl, hc4⟩ | ⟨urls, hr4, rfl⟩
  · left
    exact ⟨c4, s4, hr4, hc4, by simp [afterPurge, Prog.bind, hr4, ht4]⟩
  · right
    refine ⟨urls, hr4, ?_⟩
    obtain ⟨m5, ht5, h5⟩ :=
      prefetchUrls_shape w flags.verbose urls ((loginParams flags).set "cdn_id" id)
    rcases h5 with ⟨c5, s5, hr5, rfl, hc5⟩ | ⟨s5, hr5, rfl⟩
    · left
      exact ⟨c5, s5, hr5, hc5, by simp [afterPurge, Prog.bind, hr4, ht4, hr5, ht5]⟩
    · right
      exact ⟨s5, hr5, by simp [afterPurge, Prog.bind, hr4, ht4, hr5, ht5, finish_eq]⟩

theorem main_listing_exit (w : World) (flags : Flags) (c : Nat)
    (h1 : (getResourceList w (loginParams flags)).result = .exit c) :
    main w flags = ⟨(getResourceList w (loginParams flags)).trace, .exit c⟩ := by
  simp [main_eq, Prog.bind, h1]

theorem main_resolve_exit (w : World) (flags : Flags) (rl : cdn77resourcelist) (c : Nat)
    (h1 : (getResourceList w (loginParams flags)).result = .ret rl)
    (h2 : (getCdnId w flags.site rl).result = .exit c) :
    main w flags =
      ⟨(getResourceList w (loginParams flags)).trace ++ (getCdnId w flags.site rl).trace,
        .exit c⟩ := by
  simp [main_eq, Prog.bind, h1, h2]

theorem main_resolved (w : World) (flags : Flags) (rl : cdn77resourcelist) (id : String)
    (h1 : (getResourceList w (loginParams flags)).result = .ret rl)
    (h2 : (getCdnId w flags.site rl).result = .ret id) :
    main w flags =
      ⟨[.httpGet listUrl (some (loginParams flags)),
        .logInfo "Reading resource list from CDN77 ... ok",
        .logInfo ("Searching for " ++ flags.site ++ " ... ok (resource id #" ++ id ++ ")")] ++
        (Prog.bind (purgeStep w flags id) fun _ => afterPurge w flags id).trace,
       (Prog.bind (purgeStep w flags id) fun _ => afterPurge w flags id).result⟩ := by
  obtain ⟨m1, ht1, h1'⟩ := getResourceList_shape w (loginParams flags)
  obtain ⟨m2, ht2, h2'⟩ := getCdnId_shape w flags.site rl
  rcases h1' with ⟨c, s, hr1, -, -⟩ | ⟨rl', hr1, rfl⟩
  · rw [h1] at hr1; cases hr1
  rcases h2' with ⟨hr2, -, -⟩ | ⟨id', hr2, -, -, rfl⟩
  · rw [h2] at hr2; cases hr2
  rw [h2] at hr2
  cases hr2
  rw [main_eq]
  simp only [Prog.bind, h1, h2, ht1, ht2]
  simp

theorem isPurge_simps :
    (∀ u p, (Event.httpGet u p).isPurge = false) ∧
    (∀ u p, (Event.httpPost u p).isPurge = (u == purgeUrl)) ∧
    (∀ n, (Event.osOpen n).isPurge = false) ∧
    (∀ m, (Event.logInfo m).isPurge = false) ∧
    (∀ m, (Event.logError m).isPurge = false) :=
  ⟨fun _ _ => rfl, fun _ _ => rfl, fun _ => rfl, fun _ => rfl, fun _ => rfl⟩

theorem isPrefetch_simps :
    (∀ u p, (Event.httpGet u p).isPrefetch = false) ∧
    (∀ u p, (Event.httpPost u p).isPrefetch = (u == prefetchUrl)) ∧
    (∀ n, (Event.osOpen n).isPrefetch = false) ∧
    (∀ m, (Event.logInfo m).isPrefetch = false) ∧
    (∀ m, (Event.logError m).isPrefetch = false) :=
  ⟨fun _ _ => rfl, fun _ _ => rfl, fun _ => rfl, fun _ => rfl, fun _ => rfl⟩

theorem isError_simps :
    (∀ u p, (Event.httpGet u p).isError = false) ∧
    (∀ u p, (Event.httpPost u p).isError = false) ∧
    (∀ n, (Event.osOpen n).isError = false) ∧
    (∀ m, (Event.logInfo m).isError = false) ∧
    (∀ m, (Event.logError m).isError = true) :=
  ⟨fun _ _ => rfl, fun _ _ => rfl, fun _ => rfl, fun _ => rfl, fun _ => rfl⟩

theorem sitemapLoadEvent_isPurge (w : World) (f : String) :
    (sitemapLoadEvent w f).isPurge = false := by
  unfold sitemapLoadEvent; split <;> rfl

theorem sitemapLoadEvent_isPrefetch (w : World) (f : String) :
    (sitemapLoadEvent w f).isPrefetch = false := by
  unfold sitemapLoadEvent; split <;> rfl

theorem sitemapLoadEvent_isError (w : World) (f : String) :
    (sitemapLoadEvent w f).isError = false := by
  unfold sitemapLoadEvent; split <;> rfl

theorem afterPurge_no_purge (w : World) (flags : Flags) (id : String) :
    ∀ x ∈ (afterPurge w flags id).trace, x.isPurge = false := by
  have hne : (prefetchUrl == purgeUrl) = false := by decide
  rcases afterPurge_cases w flags id with ⟨c, s, -, -, h⟩ | ⟨urls, -, ⟨c, s, -, -, h⟩ | ⟨s, -, h⟩⟩ <;>
    simp [h, isPurge_simps, sitemapLoadEvent_isPurge, hne]

theorem params_after_resolve (flags : Flags) (id : String) (urls : List String) :
    prefetchUrls.form urls ((loginParams flags).set "cdn_id" id) =
      .values [("cdn_id", [id]), ("login", [flags.login]), ("passwd", [flags.token]),
        ("url[]", urls)] := by
  simp [prefetchUrls.form, loginParams, StrMap.set, StrMap.get, List.lookup, List.filter]

/-- What `urlsFromSitemap` returns once the source is obtained and decodes. -/
theorem urlsFromSitemap_ret (w : World) (filename : String) (byteValue : Bytes)
    (urlset : UrlSet)
    (hsrc : (isHttpSource w filename = true ∧
              ∃ r, w.Get (w.TrimSpace filename) none = .ok r ∧ r.body = byteValue) ∨
            (isHttpSource w filename = false ∧
              ∃ f, w.Open filename = .ok f ∧ f.contents = byteValue))
    (hdec : w.xmlUrlSet byteValue = .ok urlset) :
    (urlsFromSitemap w filename).result = .ret (urlset.Urls.map Url.Loc) := by
  rcases hsrc with ⟨hp, r, hg, hb⟩ | ⟨hp, f, hg, hb⟩
  · subst hb
    simp [urlsFromSitemap, hp, hg, hdec, Response.ReadAll, bind, Prog.bind, emit, logError,
      logInfo, osExit, pure, collect_eq_map]
  · subst hb
    simp [urlsFromSitemap, hp, hg, hdec, File.ReadAll, bind, Prog.bind, emit, logError,
      logInfo, osExit, pure, collect_eq_map]

/-- The prefetch calls of a run of `main` that reaches the prefetch stage. -/
theorem main_prefetch_calls (w : World) (flags : Flags) (rl : cdn77resourcelist)
    (id : String) (s : List String)
    (h1 : (getResourceList w (loginParams flags)).result = .ret rl)
    (h2 : (getCdnId w flags.site rl).result = .ret id)
    (h3 : flags.purge = true →
      (purgeAll w flags.verbose ((loginParams flags).set "cdn_id" id)).result = .ret ())
    (h4 : (urlsFromSitemap w flags.sitemap).result = .ret s) :
    (main w flags).trace.filter Event.isPrefetch =
      [.httpPost prefetchUrl (.values [("cdn_id", [id]), ("login", [flags.login]),
        ("passwd", [flags.token]), ("url[]", s)])] := by
  have hne : (purgeUrl == prefetchUrl) = false := by decide
  have heq : (prefetchUrl == prefetchUrl) = true := by decide
  rw [main_resolved w flags rl id h1 h2]
  have hA : (afterPurge w flags id).trace.filter Event.isPrefetch =
      [.httpPost prefetchUrl (.values [("cdn_id", [id]), ("login", [flags.login]),
        ("passwd", [flags.token]), ("url[]", s)])] := by
    rcases afterPurge_cases w flags id with
      ⟨c, m, hr4, -, -⟩ | ⟨urls, hr4, ⟨c, m, -, -, h⟩ | ⟨m, -, h⟩⟩
    · rw [h4] at hr4; cases hr4
    · rw [h4] at hr4; cases hr4
      simp [h, isPrefetch_simps, sitemapLoadEvent_isPrefetch, heq, params_after_resolve]
    · rw [h4] at hr4; cases hr4
      simp [h, isPrefetch_simps, sitemapLoadEvent_isPrefetch, heq, params_after_resolve]
  rcases purgeStep_cases w flags id with ⟨-, hP⟩ | ⟨hp, hP⟩
  · simp [hP, Prog.bind, isPrefetch_simps, hA]
  · obtain ⟨m3, ht3, hm3⟩ := purgeAll_shape w flags.verbose ((loginParams flags).set "cdn_id" id)
    have hr3 := h3 hp
    have hlog : m3.isPrefetch = false := by
      rcases hm3 with ⟨c, msg, -, rfl, -⟩ | ⟨msg, -, rfl⟩ <;> rfl
    simp [hP, Prog.bind, hr3, ht3, isPrefetch_simps, hA, hne, hlog]

/-- How the part of `main` from the sitemap load on ends. -/
theorem afterPurge_run (w : World) (flags : Flags) (id : String) :
    ∃ c, (afterPurge w flags id).result = .exit c ∧
      (c = 0 →
        (∀ ev ∈ (afterPurge w flags id).trace, ev.isError = false) ∧
        ∃ urls, (urlsFromSitemap w flags.sitemap).result = .ret urls ∧
          (prefetchUrls w flags.verbose urls ((loginParams flags).set "cdn_id" id)).result =
            .ret ()) ∧
      (c ≠ 0 →
        (urlsFromSitemap w flags.sitemap).result = .exit c ∨
        ∃ urls, (urlsFromSitemap w flags.sitemap).result = .ret urls ∧
          (prefetchUrls w flags.verbose urls ((loginParams flags).set "cdn_id" id)).result =
            .exit c) := by
  rcases afterPurge_cases w flags id with
    ⟨c, m, hr4, hc, h⟩ | ⟨urls, hr4, ⟨c, m, hr5, hc, h⟩ | ⟨m, hr5, h⟩⟩
  · refine ⟨c, by rw [h], ?_, fun _ => Or.inl hr4⟩
    intro h0
    subst h0
    simp at hc
  · refine ⟨c, by rw [h], ?_, fun _ => Or.inr ⟨urls, hr4, hr5⟩⟩
    intro h0
    subst h0
    simp at hc
  · refine ⟨0, by rw [h], fun _ => ⟨?_, urls, hr4, hr5⟩, fun h0 => absurd rfl h0⟩
    rw [h]
    simp [isError_simps, sitemapLoadEvent_isError]

/-- How the part of `main` that follows id resolution ends. -/
theorem afterResolve_run (w : World) (flags : Flags) (id : String) :
    ∃ c, (Prog.bind (purgeStep w flags id) fun _ => afterPurge w flags id).result = .exit c ∧
      (c = 0 →
        (∀ ev ∈ (Prog.bind (purgeStep w flags id) fun _ => afterPurge w flags id).trace,
          ev.isError = false) ∧
        ∃ urls,
          (flags.purge = true →
            (purgeAll w flags.verbose ((loginParams flags).set "cdn_id" id)).result = .ret ()) ∧
          (urlsFromSitemap w flags.sitemap).result = .ret urls ∧
          (prefetchUrls w flags.verbose urls ((loginParams flags).set "cdn_id" id)).result =
            .ret ()) ∧
      (c ≠ 0 →
        (flags.purge = true ∧
          (purgeAll w flags.verbose ((loginParams flags).set "cdn_id" id)).result = .exit c) ∨
        (urlsFromSitemap w flags.sitemap).result = .exit c ∨
        ∃ urls, (urlsFromSitemap w flags.sitemap).result = .ret urls ∧
          (prefetchUrls w flags.verbose urls ((loginParams flags).set "cdn_id" id)).result =
            .exit c) := by
  obtain ⟨c, hrA, h0A, hnA⟩ := afterPurge_run w flags id
  rcases purgeStep_cases w flags id with ⟨hp, hP⟩ | ⟨hp, hP⟩
  · refine ⟨c, by simp [Prog.bind, hP, hrA], ?_, fun hc => Or.inr (hnA hc)⟩
    intro hc
    obtain ⟨herr, urls, h4, h5⟩ := h0A hc
    refine ⟨by simpa [Prog.bind, hP] using herr, urls, ?_, h4, h5⟩
    intro h
    rw [hp] at h
    cases h
  · obtain ⟨m3, ht3, hm3⟩ :=
      purgeAll_shape w flags.verbose ((loginParams flags).set "cdn_id" id)
    rcases hm3 with ⟨c3, s3, hr3, rfl, hc3⟩ | ⟨s3, hr3, rfl⟩
    · refine ⟨c3, by simp [Prog.bind, hP, hr3], ?_, fun _ => Or.inl ⟨hp, hr3⟩⟩
      intro h0
      subst h0
      simp at hc3
    · refine ⟨c, by simp [Prog.bind, hP, hr3, hrA], ?_, fun hc => Or.inr (hnA hc)⟩
      intro hc
      obtain ⟨herr, urls, h4, h5⟩ := h0A hc
      refine ⟨?_, urls, fun _ => hr3, h4, h5⟩
      intro ev hev
      simp only [Prog.bind, hP, hr3, ht3, List.mem_append, List.mem_cons, List.mem_singleton,
        List.not_mem_nil, or_false] at hev
      rcases hev with (rfl | rfl) | hev
      · rfl
      · rfl
      · exact herr ev hev

/-- The prefetch invoker returns when the call succeeds with status `"ok"`. -/
theorem prefetchUrls_ok (w : World) (verbose : Bool) (urls : List String) (params : StrMap)
    (r : Response) (e : cdn77response)
    (hp : w.Post prefetchUrl (prefetchUrls.form urls params) = .ok r)
    (hd : w.jsonResponse r.body = .ok e) (hs : e.Status = "ok") :
    (prefetchUrls w verbose urls params).result = .ret () := by
  unfold prefetchUrls
  cases verbose <;>
    simp [bind, Prog.bind, emit, logError, logInfo, osExit, pure, hp, hd, hs, Response.ReadAll]

/-- Every failure point that a stage function looks at ends the function with the code
written next to it in the source. -/
theorem failure_point_codes (w : World) :
    (∀ params,
      (∀ err, w.Get listUrl (some params) = .error err →
        (getResourceList w params).result = .exit 0xe1) ∧
      (∀ r e, w.Get listUrl (some params) = .ok r → r.readErr = some e →
        (getResourceList w params).result = .exit 0xe2) ∧
      (∀ r err, w.Get listUrl (some params) = .ok r → r.readErr = none →
        w.jsonResourceList r.body = .error err →
        (getResourceList w params).result = .exit 0xe3) ∧
      (∀ r rl, w.Get listUrl (some params) = .ok r → r.readErr = none →
        w.jsonResourceList r.body = .ok rl → rl.Status ≠ "ok" →
        (getResourceList w params).result = .exit 0xf0)) ∧
    (∀ site rl, (∀ x ∈ rl.CdnResource, w.ToLower x.CName ≠ w.ToLower site) →
      (getCdnId w site rl).result = .exit 0xa0) ∧
    (∀ verbose params,
      (∀ err, w.Post purgeUrl (.map params) = .error err →
        (purgeAll w verbose params).result = .exit 0xb0) ∧
      (∀ r err, w.Post purgeUrl (.map params) = .ok r → w.jsonResponse r.body = .error err →
        (purgeAll w verbose params).result = .exit 0xb1) ∧
      (∀ r e, w.Post purgeUrl (.map params) = .ok r → w.jsonResponse r.body = .ok e →
        e.Status ≠ "ok" → (purgeAll w verbose params).result = .exit 0xb2)) ∧
    (∀ filename,
      (∀ err, isHttpSource w filename = true →
        w.Get (w.TrimSpace filename) none = .error err →
        (urlsFromSitemap w filename).result = .exit 0xc0) ∧
      (∀ err, isHttpSource w filename = false → w.Open filename = .error err →
        (urlsFromSitemap w filename).result = .exit 0xc0) ∧
      (∀ r err, isHttpSource w filename = true →
        w.Get (w.TrimSpace filename) none = .ok r → w.xmlUrlSet r.body = .error err →
        (urlsFromSitemap w filename).result = .exit 0xc2) ∧
      (∀ f err, isHttpSource w filename = false → w.Open filename = .ok f →
        w.xmlUrlSet f.contents = .error err →
        (urlsFromSitemap w filename).result = .exit 0xc2)) ∧
    (∀ verbose urls params,
      (∀ err, w.Post prefetchUrl (prefetchUrls.form urls params) = .error err →
        (prefetchUrls w verbose urls params).result = .exit 0xd0) ∧
      (∀ r err, w.Post prefetchUrl (prefetchUrls.form urls params) = .ok r →
        w.jsonResponse r.body = .error err →
        (prefetchUrls w verbose urls params).result = .exit 0xd1) ∧
      (∀ r e, w.Post prefetchUrl (prefetchUrls.form urls params) = .ok r →
        w.jsonResponse r.body = .ok e → e.Status ≠ "ok" →
        (prefetchUrls w verbose urls params).result = .exit 0xd2)) := by
  refine ⟨?_, ?_, ?_, ?_, ?_⟩
  · intro params
    refine ⟨?_, ?_, ?_, ?_⟩
    · intro err hg
      simp [getResourceList, hg, bind, Prog.bind, emit, logError, osExit]
    · intro r e hg hr
      simp [getResourceList, hg, Response.ReadAll, hr, bind, Prog.bind, emit, logError, osExit]
    · intro r err hg hr hd
      simp [getResourceList, hg, Response.ReadAll, hr, hd, bind, Prog.bind, emit, logError,
        osExit, pure]
    · intro r rl hg hr hd hs
      simp [getResourceList, hg, Response.ReadAll, hr, hd, hs, bind, Prog.bind, emit, logError,
        osExit, pure]
  · intro site rl hnone
    have hscan := scan_no_match w site rl.CdnResource "" hnone
    simp [getCdnId, hscan, bind, Prog.bind, emit, logError, osExit]
  · intro verbose params
    refine ⟨?_, ?_, ?_⟩
    · intro err hg
      simp [purgeAll, hg, bind, Prog.bind, emit, logError, osExit]
    · intro r err hg hd
      simp [purgeAll, hg, Response.ReadAll, hd, bind, Prog.bind, emit, logError, osExit]
    · intro r e hg hd hs
      simp [purgeAll, hg, Response.ReadAll, hd, hs, bind, Prog.bind, emit, logError, osExit]
  · intro filename
    refine ⟨?_, ?_, ?_, ?_⟩
    · intro err hp hg
      simp [urlsFromSitemap, hp, hg, bind, Prog.bind, emit, logError, osExit]
    · intro err hp hg
      simp [urlsFromSitemap, hp, hg, bind, Prog.bind, emit, logError, osExit]
    · intro r err hp hg hd
      simp [urlsFromSitemap, hp, hg, Response.ReadAll, hd, bind, Prog.bind, emit, logError,
        osExit, pure]
    · intro f err hp hg hd
      simp [urlsFromSitemap, hp, hg, File.ReadAll, hd, bind, Prog.bind, emit, logError,
        osExit, pure]
  · intro verbose urls params
    refine ⟨?_, ?_, ?_⟩
    · intro err hg
      cases verbose <;> simp [prefetchUrls, hg, bind, Prog.bind, emit, logError, osExit, pure]
    · intro r err hg hd
      cases verbose <;>
        simp [prefetchUrls, hg, Response.ReadAll, hd, bind, Prog.bind, emit, logError, osExit,
          pure]
    · intro r e hg hd hs
      cases verbose <;>
        simp [prefetchUrls, hg, Response.ReadAll, hd, hs, bind, Prog.bind, emit, logError,
          osExit, pure]

/-- Exit codes of the stages and of `main`: every `os.Exit` of a stage function takes a code
of that stage's list, every code of the lists is non-zero and fits in one byte, no code
belongs to two stages, and `main` always ends with an exit code: `0` only when every executed
stage function returned (and no error line was logged), otherwise the code with which the one
stage that exited did so. -/
theorem stage_exit_codes (w : World) (flags : Flags) :
    (∀ params c, (getResourceList w params).result = .exit c → c ∈ Stage.listing.exitCodes) ∧
    (∀ site rl c, (getCdnId w site rl).result = .exit c → c ∈ Stage.resolve.exitCodes) ∧
    (∀ v params c, (purgeAll w v params).result = .exit c → c ∈ Stage.purge.exitCodes) ∧
    (∀ f c, (urlsFromSitemap w f).result = .exit c → c ∈ Stage.sitemap.exitCodes) ∧
    (∀ v urls params c,
      (prefetchUrls w v urls params).result = .exit c → c ∈ Stage.prefetch.exitCodes) ∧
    (∀ (s : Stage) c, c ∈ s.exitCodes → c ≠ 0 ∧ c < 256) ∧
    (∀ (s₁ s₂ : Stage) c, c ∈ s₁.exitCodes → c ∈ s₂.exitCodes → s₁ = s₂) ∧
    ∃ c, (main w flags).result = .exit c ∧
      (c = 0 →
        (∀ ev ∈ (main w flags).trace, ev.isError = false) ∧
        ∃ rl id urls,
          (getResourceList w (loginParams flags)).result = .ret rl ∧
          (getCdnId w flags.site rl).result = .ret id ∧
          (flags.purge = true →
            (purgeAll w flags.verbose ((loginParams flags).set "cdn_id" id)).result = .ret ()) ∧
          (urlsFromSitemap w flags.sitemap).result = .ret urls ∧
          (prefetchUrls w flags.verbose urls ((loginParams flags).set "cdn_id" id)).result =
            .ret ()) ∧
      (c ≠ 0 →
        (getResourceList w (loginParams flags)).result = .exit c ∨
        ∃ rl, (getResourceList w (loginParams flags)).result = .ret rl ∧
          ((getCdnId w flags.site rl).result = .exit c ∨
           ∃ id, (getCdnId w flags.site rl).result = .ret id ∧
            ((flags.purge = true ∧
                (purgeAll w flags.verbose ((loginParams flags).set "cdn_id" id)).result =
                  .exit c) ∨
             (urlsFromSitemap w flags.sitemap).result = .exit c ∨
             ∃ urls, (urlsFromSitemap w flags.sitemap).result = .ret urls ∧
               (prefetchUrls w flags.verbose urls
                 ((loginParams flags).set "cdn_id" id)).result = .exit c))) := by
  refine ⟨?_, ?_, ?_, ?_, ?_, ?_, ?_, ?_⟩
  · intro params c h
    obtain ⟨m, -, hm⟩ := getResourceList_shape w params
    rcases hm with ⟨c', s, hr, -, hc⟩ | ⟨rl, hr, -⟩
    · rw [h] at hr; cases hr; exact hc
    · rw [h] at hr; cases hr
  · intro site rl c h
    obtain ⟨m, -, hm⟩ := getCdnId_shape w site rl
    rcases hm with ⟨hr, -, -⟩ | ⟨id, hr, -, -, -⟩
    · rw [h] at hr; cases hr; simp [Stage.exitCodes]
    · rw [h] at hr; cases hr
  · intro v params c h
    obtain ⟨m, -, hm⟩ := purgeAll_shape w v params
    rcases hm with ⟨c', s, hr, -, hc⟩ | ⟨s, hr, -⟩
    · rw [h] at hr; cases hr; exact hc
    · rw [h] at hr; cases hr
  · intro f c h
    obtain ⟨m, -, hm⟩ := urlsFromSitemap_shape w f
    rcases hm with ⟨c', s, hr, -, hc⟩ | ⟨urls, hr, -⟩
    · rw [h] at hr; cases hr
      simp only [List.mem_cons, List.mem_singleton, List.not_mem_nil, or_false] at hc
      rcases hc with rfl | rfl <;> simp [Stage.exitCodes]
    · rw [h] at hr; cases hr
  · intro v urls params c h
    obtain ⟨m, -, hm⟩ := prefetchUrls_shape w v urls params
    rcases hm with ⟨c', s, hr, -, hc⟩ | ⟨s, hr, -⟩
    · rw [h] at hr; cases hr; exact hc
    · rw [h] at hr; cases hr
  · intro s c hc
    cases s <;>
      simp only [Stage.exitCodes, List.mem_cons, List.mem_singleton, List.not_mem_nil,
        or_false] at hc <;>
      rcases hc with rfl | rfl | rfl | rfl <;> decide
  · intro s₁ s₂ c h₁ h₂
    cases s₁ <;> cases s₂ <;>
      simp only [Stage.exitCodes, List.mem_cons, List.mem_singleton, List.not_mem_nil,
        or_false] at h₁ h₂ <;>
      first
        | rfl
        | (exfalso; rcases h₁ with rfl | rfl | rfl | rfl <;> simp at h₂)
  · obtain ⟨m1, ht1, h1⟩ := getResourceList_shape w (loginParams flags)
    rcases h1 with ⟨c1, s1, hr1, rfl, hc1⟩ | ⟨rl, hr1, rfl⟩
    · refine ⟨c1, by rw [main_listing_exit w flags c1 hr1], ?_, fun _ => Or.inl hr1⟩
      intro h0
      subst h0
      simp at hc1
    obtain ⟨m2, ht2, h2⟩ := getCdnId_shape w flags.site rl
    rcases h2 with ⟨hr2, -, rfl⟩ | ⟨id, hr2, -, -, rfl⟩
    · refine ⟨0xa0, by rw [main_resolve_exit w flags rl _ hr1 hr2], ?_,
        fun _ => Or.inr ⟨rl, hr1, Or.inl hr2⟩⟩
      intro h0
      exact absurd h0 (by decide)
    obtain ⟨c, hrT, h0T, hnT⟩ := afterResolve_run w flags id
    rw [main_resolved w flags rl id hr1 hr2]
    refine ⟨c, hrT, ?_, fun hc => Or.inr ⟨rl, hr1, Or.inr ⟨id, hr2, hnT hc⟩⟩⟩
    intro hc
    obtain ⟨herr, urls, h3, h4, h5⟩ := h0T hc
    refine ⟨?_, rl, id, urls, hr1, hr2, h3, h4, h5⟩
    intro ev hev
    simp only [List.mem_append, List.mem_cons, List.mem_singleton, List.not_mem_nil,
      or_false] at hev
    rcases hev with (rfl | rfl | rfl) | hev
    · rfl
    · rfl
    · rfl
    · exact herr ev hev

/-! ## The claims -/

/-- C1: for every resource list and site such that some entry's cname equals the site once
both are lower-cased, `getCdnId` does not exit: it returns `strconv.Itoa` of the id of the
first such entry in list order (no entry before it matches), whatever the value of that id
and whatever the entries after it hold. -/
theorem getCdnId_returns_first_match (w : World) (site : String) (rl : cdn77resourcelist)
    (h : ∃ x ∈ rl.CdnResource, w.ToLower x.CName = w.ToLower site) :
    ∃ pre e post, rl.CdnResource = pre ++ e :: post ∧
      (∀ x ∈ pre, w.ToLower x.CName ≠ w.ToLower site) ∧
      w.ToLower e.CName = w.ToLower site ∧
      (getCdnId w site rl).result = .ret (Itoa e.Id) := by
  obtain ⟨pre, e, post, hl, hpre, he⟩ := exists_first _ _ h
  refine ⟨pre, e, post, hl, hpre, he, ?_⟩
  have hscan : getCdnId.scan w site rl.CdnResource "" = Itoa e.Id := by
    rw [hl]; exact scan_first_match w site pre post e "" hpre he
  obtain ⟨m, -, hm⟩ := getCdnId_shape w site rl
  rcases hm with ⟨-, h0, -⟩ | ⟨id, hr, hid, -, -⟩
  · exact absurd (hscan ▸ h0) (Itoa_ne_empty _)
  · rw [hr, ← hid, hscan]

/-- C1 at the example of the claim: the list `[{id: 5, cname: "Site.Example"}]` with the site
`site.example` gives `"5"`. -/
theorem getCdnId_returns_first_match_witness :
    (getCdnId scenarioWorld "site.example" ⟨"ok", "", [⟨5, "Site.Example"⟩]⟩).result =
      .ret "5" := by
  obtain ⟨pre, e, post, hl, -, -, hres⟩ :=
    getCdnId_returns_first_match scenarioWorld "site.example" ⟨"ok", "", [⟨5, "Site.Example"⟩]⟩
      ⟨⟨5, "Site.Example"⟩, by simp, by decide⟩
  cases pre with
  | nil =>
    simp only [List.nil_append, List.cons.injEq] at hl
    rw [hres, ← hl.1]
    decide
  | cons a t => simp at hl

/-- C2: for every resource list in which no entry's cname equals the site once both are
lower-cased (the empty list included), `getCdnId` ends the run with exit code `0xa0`; in a run
of `main` that received this list the exit code is `0xa0` and the events are the listing call,
its success line and the error line: no purge call, no sitemap load, no prefetch call. -/
theorem getCdnId_no_match_exits (w : World) (site : String) (rl : cdn77resourcelist)
    (hnone : ∀ x ∈ rl.CdnResource, w.ToLower x.CName ≠ w.ToLower site) :
    (getCdnId w site rl).result = .exit 0xa0 ∧
    ∀ flags : Flags, flags.site = site →
      (getResourceList w (loginParams flags)).result = .ret rl →
      (main w flags).result = .exit 0xa0 ∧
      (main w flags).trace =
        [.httpGet listUrl (some (loginParams flags)),
         .logInfo "Reading resource list from CDN77 ... ok",
         .logError ("Searching for " ++ site ++ " ... not found, aborting")] ∧
      ∀ ev ∈ (main w flags).trace,
        ev.isPurge = false ∧ ev.isSitemapLoad = false ∧ ev.isPrefetch = false := by
  have hscan := scan_no_match w site rl.CdnResource "" hnone
  obtain ⟨m, ht, hm⟩ := getCdnId_shape w site rl
  have hexit : (getCdnId w site rl).result = .exit 0xa0 ∧
      m = .logError ("Searching for " ++ site ++ " ... not found, aborting") := by
    rcases hm with ⟨hr, -, hmsg⟩ | ⟨id, -, hid, hne, -⟩
    · exact ⟨hr, hmsg⟩
    · exact absurd (hid ▸ hscan) hne
  refine ⟨hexit.1, ?_⟩
  intro flags hsite h1
  subst hsite
  obtain ⟨m1, ht1, h1'⟩ := getResourceList_shape w (loginParams flags)
  have hm1 : m1 = .logInfo "Reading resource list from CDN77 ... ok" := by
    rcases h1' with ⟨c, s, hr1, -, -⟩ | ⟨rl', -, hm1⟩
    · rw [h1] at hr1; cases hr1
    · exact hm1
  have hmain := main_resolve_exit w flags rl 0xa0 h1 hexit.1
  rw [hmain, ht1, ht, hm1, hexit.2]
  refine ⟨rfl, rfl, ?_⟩
  intro ev hev
  simp only [List.cons_append, List.nil_append, List.mem_cons, List.mem_singleton,
    List.not_mem_nil, or_false] at hev
  rcases hev with rfl | rfl | rfl <;> exact ⟨rfl, rfl, rfl⟩

/-- C2 at a concrete run: the listing holds only `Site.Example`, the configured site is
`other.example`. -/
theorem getCdnId_no_match_exits_witness :
    (getCdnId scenarioWorld "other.example" scenarioList).result = .exit 0xa0 ∧
    (main scenarioWorld { scenarioFlags with site := "other.example" }).result = .exit 0xa0 ∧
    ∀ ev ∈ (main scenarioWorld { scenarioFlags with site := "other.example" }).trace,
      ev.isPurge = false ∧ ev.isSitemapLoad = false ∧ ev.isPrefetch = false :=
  have h := getCdnId_no_match_exits scenarioWorld "other.example" scenarioList (by decide)
  have hm := h.2 { scenarioFlags with site := "other.example" } rfl (by decide)
  ⟨h.1, hm.1, hm.2.2⟩

/-- C3: when the sitemap source is obtained (fetched or opened) and its bytes decode to a
`UrlSet` with N `url` entries, `urlsFromSitemap` returns a sequence of exactly N strings whose
i-th element is the `loc` of the i-th entry; a `UrlSet` without entries gives the empty
sequence, not an error. (A failing read of the body does not change this: see C5.) -/
theorem urlsFromSitemap_returns_locs (w : World) (filename : String) (byteValue : Bytes)
    (urlset : UrlSet)
    (hsrc : (isHttpSource w filename = true ∧
              ∃ r, w.Get (w.TrimSpace filename) none = .ok r ∧ r.body = byteValue) ∨
            (isHttpSource w filename = false ∧
              ∃ f, w.Open filename = .ok f ∧ f.contents = byteValue))
    (hdec : w.xmlUrlSet byteValue = .ok urlset) :
    ∃ s, (urlsFromSitemap w filename).result = .ret s ∧
      s.length = urlset.Urls.length ∧
      (∀ i (h : i < urlset.Urls.length), s[i]? = some (urlset.Urls.get ⟨i, h⟩).Loc) ∧
      (urlset.Urls = [] → s = []) := by
  refine ⟨urlset.Urls.map Url.Loc,
    urlsFromSitemap_ret w filename byteValue urlset hsrc hdec, by simp, ?_, ?_⟩
  · intro i h
    simp [List.getElem?_map, List.getElem?_eq_getElem h]
  · intro h
    simp [h]

/-- C3 at the sitemap of the spec, read from the file `sitemap.xml`, and at the file
`empty.xml`, a `urlset` without entries. -/
theorem urlsFromSitemap_returns_locs_witness :
    (∃ s, (urlsFromSitemap scenarioWorld "sitemap.xml").result = .ret s ∧
      s.length = 2 ∧
      (∀ i (h : i < 2), s[i]? = some (sitemapUrlSet.Urls.get ⟨i, h⟩).Loc) ∧
      (sitemapUrlSet.Urls = [] → s = [])) ∧
    (∃ s, (urlsFromSitemap scenarioWorld "empty.xml").result = .ret s ∧
      s.length = 0 ∧
      (∀ i (h : i < 0), s[i]? = some ((([] : List Url)).get ⟨i, h⟩).Loc) ∧
      (([] : List Url) = [] → s = [])) :=
  ⟨urlsFromSitemap_returns_locs scenarioWorld "sitemap.xml" sitemapDoc sitemapUrlSet
    (Or.inr ⟨by decide, ⟨sitemapDoc, none⟩, rfl, rfl⟩) rfl,
   urlsFromSitemap_returns_locs scenarioWorld "empty.xml" "<urlset></urlset>" ⟨[]⟩
    (Or.inr ⟨by decide, ⟨"<urlset></urlset>", none⟩, rfl, rfl⟩) rfl⟩

/-- C4: for each of the three API calls, whenever the call itself succeeds and the body decodes
to an envelope, a status other than exactly `"ok"` ends the run with the status code of that
invoker (`0xf0` for the listing, `0xb2` for the purge, `0xd2` for the prefetch) after an
error line whose message contains the description of the envelope, and a status of exactly
`"ok"` makes the invoker return instead. For the listing the body must also have been read
without error (a failing read exits `0xe2` before decoding); purge and prefetch discard that
error. -/
theorem status_not_ok_aborts (w : World) (verbose : Bool) (params : StrMap)
    (urls : List String) :
    (∀ r rl, w.Get listUrl (some params) = .ok r → r.readErr = none →
      w.jsonResourceList r.body = .ok rl →
      (rl.Status ≠ "ok" →
        (getResourceList w params).result = .exit 0xf0 ∧
        ∃ pre post, Event.logError (pre ++ rl.Description ++ post) ∈
          (getResourceList w params).trace) ∧
      (rl.Status = "ok" → (getResourceList w params).result = .ret rl)) ∧
    (∀ r e, w.Post purgeUrl (.map params) = .ok r → w.jsonResponse r.body = .ok e →
      (e.Status ≠ "ok" →
        (purgeAll w verbose params).result = .exit 0xb2 ∧
        ∃ pre post, Event.logError (pre ++ e.Description ++ post) ∈
          (purgeAll w verbose params).trace) ∧
      (e.Status = "ok" → (purgeAll w verbose params).result = .ret ())) ∧
    (∀ r e, w.Post prefetchUrl (prefetchUrls.form urls params) = .ok r →
      w.jsonResponse r.body = .ok e →
      (e.Status ≠ "ok" →
        (prefetchUrls w verbose urls params).result = .exit 0xd2 ∧
        ∃ pre post, Event.logError (pre ++ e.Description ++ post) ∈
          (prefetchUrls w verbose urls params).trace) ∧
      (e.Status = "ok" → (prefetchUrls w verbose urls params).result = .ret ())) := by
  refine ⟨?_, ?_, ?_⟩
  · intro r rl hg hr hd
    have hra : r.ReadAll = (r.body, none) := by simp [Response.ReadAll, hr]
    constructor
    · intro hs
      refine ⟨?_, "Reading resource list from CDN77 ... " ++ rl.Status ++ ": ", "", ?_⟩ <;>
        simp [getResourceList, hg, hra, hd, hs, bind, Prog.bind, emit, logError, logInfo,
          osExit, pure, String.append_assoc]
    · intro hs
      simp [getResourceList, hg, hra, hd, hs, bind, Prog.bind, emit, logError, logInfo,
        osExit, pure]
  · intro r e hg hd
    constructor
    · intro hs
      refine ⟨?_, "Starting 'purge-all' ... " ++ e.Status ++ ": ", ", aborting", ?_⟩ <;>
        simp [purgeAll, hg, Response.ReadAll, hd, hs, bind, Prog.bind, emit, logError,
          logInfo, osExit, pure, String.append_assoc]
    · intro hs
      cases verbose <;>
        simp [purgeAll, hg, Response.ReadAll, hd, hs, bind, Prog.bind, emit, logError,
          logInfo, osExit, pure]
  · intro r e hg hd
    constructor
    · intro hs
      refine ⟨?_, (if verbose then prefetchUrls.writeUrls 0 urls "Prefetching "
          else "Prefetching ") ++ " ... " ++ e.Status ++ " (", ")", ?_⟩ <;>
        cases verbose <;>
        simp [prefetchUrls, hg, Response.ReadAll, hd, hs, bind, Prog.bind, emit, logError,
          logInfo, osExit, pure, String.append_assoc]
    · intro hs
      cases verbose <;>
        simp [prefetchUrls, hg, Response.ReadAll, hd, hs, bind, Prog.bind, emit, logError,
          logInfo, osExit, pure]

/-- C4 at a server that answers every call with
`{status: "error", description: "Authentication failed."}`. -/
theorem status_not_ok_aborts_witness :
    ((getResourceList deniedWorld (loginParams scenarioFlags)).result = .exit 0xf0 ∧
      ∃ pre post, Event.logError (pre ++ "Authentication failed." ++ post) ∈
        (getResourceList deniedWorld (loginParams scenarioFlags)).trace) ∧
    ((purgeAll deniedWorld true (loginParams scenarioFlags)).result = .exit 0xb2 ∧
      ∃ pre post, Event.logError (pre ++ "Authentication failed." ++ post) ∈
        (purgeAll deniedWorld true (loginParams scenarioFlags)).trace) ∧
    ((prefetchUrls deniedWorld true ["https://a.com/1"] (loginParams scenarioFlags)).result =
        .exit 0xd2 ∧
      ∃ pre post, Event.logError (pre ++ "Authentication failed." ++ post) ∈
        (prefetchUrls deniedWorld true ["https://a.com/1"] (loginParams scenarioFlags)).trace) :=
  have h := status_not_ok_aborts deniedWorld true (loginParams scenarioFlags) ["https://a.com/1"]
  ⟨(h.1 ⟨deniedBody, none⟩ ⟨"error", "Authentication failed.", []⟩ rfl rfl rfl).1 (by decide),
   (h.2.1 ⟨deniedBody, none⟩ ⟨"error", "Authentication failed."⟩ rfl rfl).1 (by decide),
   (h.2.2 ⟨deniedBody, none⟩ ⟨"error", "Authentication failed."⟩ rfl rfl).1 (by decide)⟩

/-- C5 (the code does otherwise): the server sends the whole sitemap and the read of the body
then fails. `urlsFromSitemap` does not exit with `0xc1`: it logs success, parses the bytes
read and returns the two URLs, and `main` goes on to post the prefetch and exits 0. For a
directory given as the source, the failed read of the opened file is dropped as well and the
run ends in the parse error `0xc2` on the empty contents. No input at all makes
`urlsFromSitemap` exit with `0xc1`. -/
theorem urlsFromSitemap_ignores_read_error :
    truncatedWorld.Get "https://site.example/sitemap.xml" none =
      .ok ⟨sitemapDoc, some "unexpected EOF"⟩ ∧
    urlsFromSitemap truncatedWorld "https://site.example/sitemap.xml" =
      ⟨[.httpGet "https://site.example/sitemap.xml" none,
        .logInfo "Reading 'https://site.example/sitemap.xml' ... ok"],
       .ret ["https://a.com/1", "https://a.com/2"]⟩ ∧
    (main truncatedWorld httpFlags).result = .exit 0 ∧
    (main truncatedWorld httpFlags).trace.filter Event.isPrefetch =
      [.httpPost prefetchUrl (.values [("cdn_id", ["5"]), ("login", ["me@site.example"]),
        ("passwd", ["t0ken"]), ("url[]", ["https://a.com/1", "https://a.com/2"])])] ∧
    scenarioWorld.Open "sitemaps" = .ok ⟨"", some "read sitemaps: is a directory"⟩ ∧
    urlsFromSitemap scenarioWorld "sitemaps" =
      ⟨[.osOpen "sitemaps", .logError "Reading 'sitemaps' ... EOF, aborting"], .exit 0xc2⟩ ∧
    ∀ (w : World) (filename : String), (urlsFromSitemap w filename).result ≠ .exit 0xc1 := by
  refine ⟨rfl, rfl, by decide, by decide, rfl, rfl, ?_⟩
  intro w filename h
  obtain ⟨m, -, hm⟩ := urlsFromSitemap_shape w filename
  rcases hm with ⟨c, s, hr, -, hc⟩ | ⟨urls, hr, -⟩
  · rw [h] at hr
    cases hr
    simp at hc
  · rw [h] at hr
    cases hr

/-- C6: `prefetchUrls` issues exactly one POST to the prefetch endpoint, whatever the answer;
its `url[]` field is the sequence it was given, unchanged, next to the single-valued `cdn_id`,
`login` and `passwd` read from the params. In a run of `main` that reaches the prefetch stage
the sequence is the one `urlsFromSitemap` returned and the three values are the resolved id,
the login and the token; when the sitemap is the document of the spec the field is
`["https://a.com/1", "https://a.com/2"]`. An empty sequence is posted like any other. -/
theorem prefetchUrls_posts_urls_unchanged (w : World) (flags : Flags) (verbose : Bool)
    (urls : List String) (params : StrMap) :
    (prefetchUrls w verbose urls params).trace.filter Event.isPrefetch =
      [.httpPost prefetchUrl (.values [("cdn_id", [params.get "cdn_id"]),
        ("login", [params.get "login"]), ("passwd", [params.get "passwd"]),
        ("url[]", urls)])] ∧
    (prefetchUrls w verbose [] params).trace.filter Event.isPrefetch =
      [.httpPost prefetchUrl (.values [("cdn_id", [params.get "cdn_id"]),
        ("login", [params.get "login"]), ("passwd", [params.get "passwd"]),
        ("url[]", [])])] ∧
    (∀ rl id s,
      (getResourceList w (loginParams flags)).result = .ret rl →
      (getCdnId w flags.site rl).result = .ret id →
      (flags.purge = true →
        (purgeAll w flags.verbose ((loginParams flags).set "cdn_id" id)).result = .ret ()) →
      (urlsFromSitemap w flags.sitemap).result = .ret s →
      (main w flags).trace.filter Event.isPrefetch =
        [.httpPost prefetchUrl (.values [("cdn_id", [id]), ("login", [flags.login]),
          ("passwd", [flags.token]), ("url[]", s)])]) ∧
    (∀ rl id,
      (getResourceList w (loginParams flags)).result = .ret rl →
      (getCdnId w flags.site rl).result = .ret id →
      (flags.purge = true →
        (purgeAll w flags.verbose ((loginParams flags).set "cdn_id" id)).result = .ret ()) →
      ((isHttpSource w flags.sitemap = true ∧
          ∃ r, w.Get (w.TrimSpace flags.sitemap) none = .ok r ∧ r.body = sitemapDoc) ∨
        (isHttpSource w flags.sitemap = false ∧
          ∃ f, w.Open flags.sitemap = .ok f ∧ f.contents = sitemapDoc)) →
      w.xmlUrlSet sitemapDoc = .ok sitemapUrlSet →
      (main w flags).trace.filter Event.isPrefetch =
        [.httpPost prefetchUrl (.values [("cdn_id", [id]), ("login", [flags.login]),
          ("passwd", [flags.token]), ("url[]", ["https://a.com/1", "https://a.com/2"])])]) := by
  have heq : (prefetchUrl == prefetchUrl) = true := by decide
  have hfn : ∀ us, (prefetchUrls w verbose us params).trace.filter Event.isPrefetch =
      [.httpPost prefetchUrl (.values [("cdn_id", [params.get "cdn_id"]),
        ("login", [params.get "login"]), ("passwd", [params.get "passwd"]),
        ("url[]", us)])] := by
    intro us
    obtain ⟨m, ht, hm⟩ := prefetchUrls_shape w verbose us params
    have hlog : m.isPrefetch = false := by
      rcases hm with ⟨c, msg, -, rfl, -⟩ | ⟨msg, -, rfl⟩ <;> rfl
    simp [ht, isPrefetch_simps, heq, hlog, prefetchUrls.form]
  refine ⟨hfn urls, hfn [], ?_, ?_⟩
  · intro rl id s h1 h2 h3 h4
    exact main_prefetch_calls w flags rl id s h1 h2 h3 h4
  · intro rl id h1 h2 h3 hsrc hdec
    exact main_prefetch_calls w flags rl id _ h1 h2 h3
      (urlsFromSitemap_ret w flags.sitemap sitemapDoc sitemapUrlSet hsrc hdec)

/-- C6 at the round-trip scenario: the sitemap of the spec, read from `sitemap.xml`. -/
theorem prefetchUrls_posts_urls_unchanged_witness :
    (main scenarioWorld scenarioFlags).trace.filter Event.isPrefetch =
      [.httpPost prefetchUrl (.values [("cdn_id", ["5"]), ("login", ["me@site.example"]),
        ("passwd", ["t0ken"]), ("url[]", ["https://a.com/1", "https://a.com/2"])])] :=
  (prefetchUrls_posts_urls_unchanged scenarioWorld scenarioFlags false [] []).2.2.2
    scenarioList "5" (by decide) (by decide) (fun h => absurd h (by decide))
    (Or.inr ⟨by decide, ⟨sitemapDoc, none⟩, rfl, rfl⟩) rfl

/-- C7: `urlsFromSitemap` performs exactly one load. It is an HTTP GET if and only if the
source, lower-cased and trimmed of white space, starts with `http://` or `https://`, and then
the URL fetched is the trimmed source in its original case and no file is opened; for every
other source the load is the opening of the file named by the source as given, and no GET is
made. So `"  HTTPS://Example.com/sitemap.xml "` is fetched from
`"HTTPS://Example.com/sitemap.xml"`. -/
theorem urlsFromSitemap_fetches_iff_http_prefix (w : World) (s : String) :
    ((∃ url params, Event.httpGet url params ∈ (urlsFromSitemap w s).trace) ↔
      (HasPrefix (w.TrimSpace (w.ToLower s)) "http://" = true ∨
        HasPrefix (w.TrimSpace (w.ToLower s)) "https://" = true)) ∧
    ((HasPrefix (w.TrimSpace (w.ToLower s)) "http://" = true ∨
        HasPrefix (w.TrimSpace (w.ToLower s)) "https://" = true) →
      (urlsFromSitemap w s).trace.filter (fun ev => !ev.isLog) =
        [.httpGet (w.TrimSpace s) none]) ∧
    (¬ (HasPrefix (w.TrimSpace (w.ToLower s)) "http://" = true ∨
        HasPrefix (w.TrimSpace (w.ToLower s)) "https://" = true) →
      (urlsFromSitemap w s).trace.filter (fun ev => !ev.isLog) = [.osOpen s]) ∧
    (urlsFromSitemap scenarioWorld "  HTTPS://Example.com/sitemap.xml ").trace.filter
        (fun ev => !ev.isLog) = [.httpGet "HTTPS://Example.com/sitemap.xml" none] := by
  have hiff : isHttpSource w s = true ↔
      (HasPrefix (w.TrimSpace (w.ToLower s)) "http://" = true ∨
        HasPrefix (w.TrimSpace (w.ToLower s)) "https://" = true) := by
    simp [isHttpSource]
  obtain ⟨m, ht, hm⟩ := urlsFromSitemap_shape w s
  have hlog : m.isLog = true := by
    rcases hm with ⟨c, msg, -, rfl, -⟩ | ⟨urls, -, rfl⟩ <;> rfl
  rw [← hiff, ht]
  refine ⟨?_, ?_, ?_, by decide⟩
  · cases hp : isHttpSource w s
    · rcases hm with ⟨c, msg, -, rfl, -⟩ | ⟨urls, -, rfl⟩ <;> simp [sitemapLoadEvent, hp]
    · simp only [sitemapLoadEvent, hp, if_true, iff_true]
      exact ⟨_, _, List.mem_cons_self _ _⟩
  · intro hp
    have h0 : (Event.httpGet (w.TrimSpace s) none).isLog = false := rfl
    simp [sitemapLoadEvent, hp, hlog, h0]
  · intro hp
    have h0 : (Event.osOpen s).isLog = false := rfl
    simp [sitemapLoadEvent, hp, hlog, h0]

/-- C8 (the code does otherwise): the claim has a run exit 0 only when every executed stage
succeeded, and reserves `0xc1` for a failed read in the sitemap stage. In the run of the first
part the read of the sitemap body fails, yet `main` logs no error line and exits 0, because
`urlsFromSitemap` never looks at that read error (the defect of C5). The second part is what
holds of the claim, for every world: each failure point that a stage function looks at ends
that function with the code written for it; a stage function exits only with codes of its own
list; every code is non-zero and fits in one byte; no code belongs to two stages; and `main`
always ends with an exit code, `0` only when every executed stage function returned, otherwise
the code with which the one stage that exited did so. -/
theorem exit_zero_after_sitemap_read_failure :
    (truncatedWorld.Get httpFlags.sitemap none = .ok ⟨sitemapDoc, some "unexpected EOF"⟩ ∧
      (Response.ReadAll ⟨sitemapDoc, some "unexpected EOF"⟩).2 = some "unexpected EOF" ∧
      0xc1 ∈ Stage.sitemap.exitCodes ∧
      (main truncatedWorld httpFlags).result = .exit 0 ∧
      ∀ ev ∈ (main truncatedWorld httpFlags).trace, ev.isError = false) ∧
    ∀ (w : World) (flags : Flags),
      ((∀ params,
          (∀ err, w.Get listUrl (some params) = .error err →
            (getResourceList w params).result = .exit 0xe1) ∧
          (∀ r e, w.Get listUrl (some params) = .ok r → r.readErr = some e →
            (getResourceList w params).result = .exit 0xe2) ∧
          (∀ r err, w.Get listUrl (some params) = .ok r → r.readErr = none →
            w.jsonResourceList r.body = .error err →
            (getResourceList w params).result = .exit 0xe3) ∧
          (∀ r rl, w.Get listUrl (some params) = .ok r → r.readErr = none →
            w.jsonResourceList r.body = .ok rl → rl.Status ≠ "ok" →
            (getResourceList w params).result = .exit 0xf0)) ∧
        (∀ site rl, (∀ x ∈ rl.CdnResource, w.ToLower x.CName ≠ w.ToLower site) →
          (getCdnId w site rl).result = .exit 0xa0) ∧
        (∀ verbose params,
          (∀ err, w.Post purgeUrl (.map params) = .error err →
            (purgeAll w verbose params).result = .exit 0xb0) ∧
          (∀ r err, w.Post purgeUrl (.map params) = .ok r → w.jsonResponse r.body = .error err →
            (purgeAll w verbose params).result = .exit 0xb1) ∧
          (∀ r e, w.Post purgeUrl (.map params) = .ok r → w.jsonResponse r.body = .ok e →
            e.Status ≠ "ok" → (purgeAll w verbose params).result = .exit 0xb2)) ∧
        (∀ filename,
          (∀ err, isHttpSource w filename = true →
            w.Get (w.TrimSpace filename) none = .error err →
            (urlsFromSitemap w filename).result = .exit 0xc0) ∧
          (∀ err, isHttpSource w filename = false → w.Open filename = .error err →
            (urlsFromSitemap w filename).result = .exit 0xc0) ∧
          (∀ r err, isHttpSource w filename = true →
            w.Get (w.TrimSpace filename) none = .ok r → w.xmlUrlSet r.body = .error err →
            (urlsFromSitemap w filename).result = .exit 0xc2) ∧
          (∀ f err, isHttpSource w filename = false → w.Open filename = .ok f →
            w.xmlUrlSet f.contents = .error err →
            (urlsFromSitemap w filename).result = .exit 0xc2)) ∧
        (∀ verbose urls params,
          (∀ err, w.Post prefetchUrl (prefetchUrls.form urls params) = .error err →
            (prefetchUrls w verbose urls params).result = .exit 0xd0) ∧
          (∀ r err, w.Post prefetchUrl (prefetchUrls.form urls params) = .ok r →
            w.jsonResponse r.body = .error err →
            (prefetchUrls w verbose urls params).result = .exit 0xd1) ∧
          (∀ r e, w.Post prefetchUrl (prefetchUrls.form urls params) = .ok r →
            w.jsonResponse r.body = .ok e → e.Status ≠ "ok" →
            (prefetchUrls w verbose urls params).result = .exit 0xd2))) ∧
      ((∀ params c, (getResourceList w params).result = .exit c → c ∈ Stage.listing.exitCodes) ∧
        (∀ site rl c, (getCdnId w site rl).result = .exit c → c ∈ Stage.resolve.exitCodes) ∧
        (∀ v params c, (purgeAll w v params).result = .exit c → c ∈ Stage.purge.exitCodes) ∧
        (∀ f c, (urlsFromSitemap w f).result = .exit c → c ∈ Stage.sitemap.exitCodes) ∧
        (∀ v urls params c,
          (prefetchUrls w v urls params).result = .exit c → c ∈ Stage.prefetch.exitCodes) ∧
        (∀ (s : Stage) c, c ∈ s.exitCodes → c ≠ 0 ∧ c < 256) ∧
        (∀ (s₁ s₂ : Stage) c, c ∈ s₁.exitCodes → c ∈ s₂.exitCodes → s₁ = s₂) ∧
        ∃ c, (main w flags).result = .exit c ∧
          (c = 0 →
            (∀ ev ∈ (main w flags).trace, ev.isError = false) ∧
            ∃ rl id urls,
              (getResourceList w (loginParams flags)).result = .ret rl ∧
              (getCdnId w flags.site rl).result = .ret id ∧
              (flags.purge = true →
                (purgeAll w flags.verbose ((loginParams flags).set "cdn_id" id)).result = .ret ()) ∧
              (urlsFromSitemap w flags.sitemap).result = .ret urls ∧
              (prefetchUrls w flags.verbose urls ((loginParams flags).set "cdn_id" id)).result =
                .ret ()) ∧
          (c ≠ 0 →
            (getResourceList w (loginParams flags)).result = .exit c ∨
            ∃ rl, (getResourceList w (loginParams flags)).result = .ret rl ∧
              ((getCdnId w flags.site rl).result = .exit c ∨
               ∃ id, (getCdnId w flags.site rl).result = .ret id ∧
                ((flags.purge = true ∧
                    (purgeAll w flags.verbose ((loginParams flags).set "cdn_id" id)).result =
                      .exit c) ∨
                 (urlsFromSitemap w flags.sitemap).result = .exit c ∨
                 ∃ urls, (urlsFromSitemap w flags.sitemap).result = .ret urls ∧
                   (prefetchUrls w flags.verbose urls
                     ((loginParams flags).set "cdn_id" id)).result = .exit c)))) :=
  ⟨⟨rfl, rfl, by decide, by decide, by decide⟩,
    fun w flags => ⟨failure_point_codes w, stage_exit_codes w flags⟩⟩

/-- C9: a run of `main` calls the purge endpoint if and only if the purge flag is set and the
resource id was resolved (the listing returned and `getCdnId` returned), and never more than
once. When it is called, the call comes right after the line that reports the resolved id:
before it the run has only listed the resources and logged, so no sitemap has been loaded and
no prefetch sent, and after it no further purge call follows. In the end-to-end scenario of
the spec (the listing holds `{id: 5, cname: "Site.Example"}`, the site is `site.example`, the
purge flag is unset, the sitemap loads, the prefetch is answered
`{status: "ok", description: "queued"}`) the resolved id is `"5"`, the purge endpoint is never
called and the run exits 0. -/
theorem purge_iff_flag_and_resolved (w : World) (flags : Flags) :
    ((∃ ev ∈ (main w flags).trace, ev.isPurge = true) ↔
      (flags.purge = true ∧
        ∃ rl id, (getResourceList w (loginParams flags)).result = .ret rl ∧
          (getCdnId w flags.site rl).result = .ret id)) ∧
    (main w flags).trace.countP Event.isPurge ≤ 1 ∧
    (∀ rl id, flags.purge = true →
      (getResourceList w (loginParams flags)).result = .ret rl →
      (getCdnId w flags.site rl).result = .ret id →
      ∃ pre post,
        (main w flags).trace =
          pre ++ .httpPost purgeUrl (.map ((loginParams flags).set "cdn_id" id)) :: post ∧
        pre = [.httpGet listUrl (some (loginParams flags)),
          .logInfo "Reading resource list from CDN77 ... ok",
          .logInfo ("Searching for " ++ flags.site ++ " ... ok (resource id #" ++ id ++ ")")] ∧
        (∀ x ∈ pre, x.isSitemapLoad = false ∧ x.isPrefetch = false ∧ x.isPurge = false) ∧
        (∀ x ∈ post, x.isPurge = false)) ∧
    (∀ rl urls r,
      (getResourceList w (loginParams flags)).result = .ret rl →
      rl.CdnResource = [⟨5, "Site.Example"⟩] →
      flags.site = "site.example" →
      w.ToLower "Site.Example" = w.ToLower "site.example" →
      flags.purge = false →
      (urlsFromSitemap w flags.sitemap).result = .ret urls →
      w.Post prefetchUrl (prefetchUrls.form urls ((loginParams flags).set "cdn_id" "5")) =
        .ok r →
      w.jsonResponse r.body = .ok ⟨"ok", "queued"⟩ →
      (getCdnId w flags.site rl).result = .ret "5" ∧
      (∀ ev ∈ (main w flags).trace, ev.isPurge = false) ∧
      (main w flags).result = .exit 0) := by
  have hpp : (purgeUrl == purgeUrl) = true := by decide
  -- the part of the run that follows id resolution
  have htail : ∀ id,
      (flags.purge = false →
        ∀ x ∈ (Prog.bind (purgeStep w flags id) fun _ => afterPurge w flags id).trace,
          x.isPurge = false) ∧
      (flags.purge = true →
        ∃ post, (Prog.bind (purgeStep w flags id) fun _ => afterPurge w flags id).trace =
            .httpPost purgeUrl (.map ((loginParams flags).set "cdn_id" id)) :: post ∧
          ∀ x ∈ post, x.isPurge = false) := by
    intro id
    have hA := afterPurge_no_purge w flags id
    rcases purgeStep_cases w flags id with ⟨hp, hP⟩ | ⟨hp, hP⟩
    · refine ⟨fun _ => by simpa [Prog.bind, hP] using hA, fun h => ?_⟩
      rw [hp] at h
      cases h
    · refine ⟨fun h => ?_, fun _ => ?_⟩
      · rw [hp] at h
        cases h
      obtain ⟨m3, ht3, hm3⟩ :=
        purgeAll_shape w flags.verbose ((loginParams flags).set "cdn_id" id)
      rcases hm3 with ⟨c3, s3, hr3, rfl, -⟩ | ⟨s3, hr3, rfl⟩
      · exact ⟨[.logError s3], by simp [Prog.bind, hP, hr3, ht3], by simp [isPurge_simps]⟩
      · refine ⟨.logInfo s3 :: (afterPurge w flags id).trace,
          by simp [Prog.bind, hP, hr3, ht3], ?_⟩
        intro x hx
        rcases List.mem_cons.mp hx with rfl | hx
        · rfl
        · exact hA x hx
  -- the runs that end before or at id resolution make no purge call
  have hearly : (¬ ∃ rl id, (getResourceList w (loginParams flags)).result = .ret rl ∧
      (getCdnId w flags.site rl).result = .ret id) →
      ∀ x ∈ (main w flags).trace, x.isPurge = false := by
    intro hno
    obtain ⟨m1, ht1, h1⟩ := getResourceList_shape w (loginParams flags)
    rcases h1 with ⟨c1, s1, hr1, rfl, -⟩ | ⟨rl, hr1, rfl⟩
    · rw [main_listing_exit w flags c1 hr1, ht1]
      simp [isPurge_simps]
    obtain ⟨m2, ht2, h2⟩ := getCdnId_shape w flags.site rl
    rcases h2 with ⟨hr2, -, rfl⟩ | ⟨id, hr2, -, -, -⟩
    · rw [main_resolve_exit w flags rl _ hr1 hr2, ht1, ht2]
      simp [isPurge_simps]
    · exact absurd ⟨rl, id, hr1, hr2⟩ hno
  have hnone : ∀ l : List Event, (∀ x ∈ l, x.isPurge = false) → l.countP Event.isPurge = 0 := by
    intro l hl
    rw [List.countP_eq_zero]
    intro x hx
    simp [hl x hx]
  refine ⟨?_, ?_, ?_, ?_⟩
  · constructor
    · rintro ⟨ev, hev, hpurge⟩
      by_cases hres : ∃ rl id, (getResourceList w (loginParams flags)).result = .ret rl ∧
          (getCdnId w flags.site rl).result = .ret id
      · refine ⟨?_, hres⟩
        obtain ⟨rl, id, hr1, hr2⟩ := hres
        cases hp : flags.purge
        · exfalso
          rw [main_resolved w flags rl id hr1 hr2] at hev
          simp only [List.mem_append, List.mem_cons, List.mem_singleton, List.not_mem_nil,
            or_false] at hev
          rcases hev with (rfl | rfl | rfl) | hev
          · cases hpurge
          · cases hpurge
          · cases hpurge
          · rw [(htail id).1 hp ev hev] at hpurge
            cases hpurge
        · rfl
      · rw [hearly hres ev hev] at hpurge
        cases hpurge
    · rintro ⟨hp, rl, id, hr1, hr2⟩
      obtain ⟨post, ht, -⟩ := (htail id).2 hp
      refine ⟨.httpPost purgeUrl (.map ((loginParams flags).set "cdn_id" id)), ?_, ?_⟩
      · rw [main_resolved w flags rl id hr1 hr2, ht]
        simp
      · simp [isPurge_simps, hpp]
  · by_cases hres : ∃ rl id, (getResourceList w (loginParams flags)).result = .ret rl ∧
        (getCdnId w flags.site rl).result = .ret id
    · obtain ⟨rl, id, hr1, hr2⟩ := hres
      rw [main_resolved w flags rl id hr1 hr2]
      cases hp : flags.purge
      · rw [List.countP_append, hnone _ ((htail id).1 hp)]
        simp [List.countP_cons, isPurge_simps]
      · obtain ⟨post, ht, hpost⟩ := (htail id).2 hp
        rw [ht, List.countP_append]
        simp [List.countP_cons, isPurge_simps, hpp, hnone _ hpost]
    · rw [hnone _ (hearly hres)]
      exact Nat.zero_le 1
  · intro rl id hp hr1 hr2
    obtain ⟨post, ht, hpost⟩ := (htail id).2 hp
    refine ⟨_, post, ?_, rfl, ?_, hpost⟩
    · rw [main_resolved w flags rl id hr1 hr2, ht]
    · intro x hx
      simp only [List.mem_cons, List.mem_singleton, List.not_mem_nil, or_false] at hx
      rcases hx with rfl | rfl | rfl <;> exact ⟨rfl, rfl, rfl⟩
  · intro rl urls r hr1 hlist hsite hlow hp hr4 hpost hdec
    have hscan : getCdnId.scan w flags.site rl.CdnResource "" = "5" := by
      rw [hlist, hsite]
      simp only [getCdnId.scan, hlow, beq_self_eq_true, if_true]
      decide
    obtain ⟨m2, -, h2⟩ := getCdnId_shape w flags.site rl
    have hr2 : (getCdnId w flags.site rl).result = .ret "5" := by
      rcases h2 with ⟨-, h0, -⟩ | ⟨id, hr, hid, -, -⟩
      · rw [hscan] at h0
        exact absurd h0 (by decide)
      · rw [hr, ← hid, hscan]
    have hr5 := prefetchUrls_ok w flags.verbose urls _ r _ hpost hdec rfl
    refine ⟨hr2, ?_, ?_⟩
    · intro ev hev
      rw [main_resolved w flags rl "5" hr1 hr2] at hev
      simp only [List.mem_append, List.mem_cons, List.mem_singleton, List.not_mem_nil,
        or_false] at hev
      rcases hev with (rfl | rfl | rfl) | hev
      · rfl
      · rfl
      · rfl
      · exact (htail "5").1 hp ev hev
    · rw [main_resolved w flags rl "5" hr1 hr2]
      obtain ⟨c, hrT, -, hnT⟩ := afterResolve_run w flags "5"
      by_cases hc : c = 0
      · rw [hrT, hc]
      · exfalso
        rcases hnT hc with ⟨hp', -⟩ | h4 | ⟨urls', h4, h5⟩
        · rw [hp] at hp'
          cases hp'
        · rw [hr4] at h4
          cases h4
        · rw [hr4] at h4
          cases h4
          rw [hr5] at h5
          cases h5

/-- C9 at the end-to-end scenario of the spec. -/
theorem purge_iff_flag_and_resolved_witness :
    (getCdnId scenarioWorld scenarioFlags.site scenarioList).result = .ret "5" ∧
    (∀ ev ∈ (main scenarioWorld scenarioFlags).trace, ev.isPurge = false) ∧
    (main scenarioWorld scenarioFlags).result = .exit 0 :=
  (purge_iff_flag_and_resolved scenarioWorld scenarioFlags).2.2.2 scenarioList
    ["https://a.com/1", "https://a.com/2"] ⟨queuedBody, none⟩
    (by decide) rfl rfl (by decide) rfl (by decide) rfl rfl

/-- C10: when the prefetch call succeeds with an envelope of status `"ok"`, `prefetchUrls`
returns after one info line. With verbose set its message is `"Prefetching "`, then every URL
wrapped in single quotes and joined by `", "`, then `" ... ok ("`, the description and `")"`.
With verbose unset it is exactly `"Prefetching  ... ok"`, whatever the URLs and the
description. -/
theorem prefetchUrls_success_message (w : World) (verbose : Bool) (urls : List String)
    (params : StrMap) (r : Response) (e : cdn77response)
    (hp : w.Post prefetchUrl (prefetchUrls.form urls params) = .ok r)
    (hd : w.jsonResponse r.body = .ok e) (hs : e.Status = "ok") :
    (prefetchUrls w verbose urls params).result = .ret () ∧
    (prefetchUrls w verbose urls params).trace =
      [.httpPost prefetchUrl (prefetchUrls.form urls params),
       .logInfo (if verbose then
           "Prefetching " ++ quotedUrls urls ++ " ... ok (" ++ e.Description ++ ")"
         else "Prefetching  ... ok")] := by
  unfold prefetchUrls
  cases verbose <;>
    simp [bind, Prog.bind, emit, logError, logInfo, osExit, pure, hp, hd, hs, writeUrls_zero,
      Response.ReadAll, String.append_assoc]

/-- C10 at the two URLs of the spec's sitemap, verbose set and unset. -/
theorem prefetchUrls_success_message_witness :
    (prefetchUrls scenarioWorld true ["https://a.com/1", "https://a.com/2"]
        (loginParams scenarioFlags)).trace.getLast? =
      some (.logInfo "Prefetching 'https://a.com/1', 'https://a.com/2' ... ok (queued)") ∧
    (prefetchUrls scenarioWorld false ["https://a.com/1", "https://a.com/2"]
        (loginParams scenarioFlags)).trace.getLast? =
      some (.logInfo "Prefetching  ... ok") := by
  have ht := (prefetchUrls_success_message scenarioWorld true
    ["https://a.com/1", "https://a.com/2"] (loginParams scenarioFlags) ⟨queuedBody, none⟩
    ⟨"ok", "queued"⟩ rfl rfl rfl).2
  have hf := (prefetchUrls_success_message scenarioWorld false
    ["https://a.com/1", "https://a.com/2"] (loginParams scenarioFlags) ⟨queuedBody, none⟩
    ⟨"ok", "queued"⟩ rfl rfl rfl).2
  rw [ht, hf]
  exact ⟨by decide, by decide⟩

end Cdn77
